import Mathlib

/-!
# SDP helper routines of kms-core (`src/gst-plugins/commons/sdp_utils.c`)

A shallow embedding of the attribute-intersection engine and of the pure
lookup helpers of `sdp_utils.c`, followed by the properties proved about them.
The RTP media handlers, of which the sources hold the declarations only, are
modelled from the specification.  Of the hub (`kmsbasehub.c`) the callback
`endpoint_pad_added` is embedded.

Conventions of the embedding

* A C string (`gchar *`, NUL terminated) is a Lean `String`; the characters
  stand for the bytes before the terminator, so no string contains NUL.  A
  pointer that may be `NULL` is an `Option String`.
* `GstSDPAttribute.key` is never `NULL`: attributes are built with
  `gst_sdp_attribute_set`, which rejects a `NULL` key.  The value may be
  `NULL` (`none`) or empty (`some ""`).
* The GLib / GStreamer / libc functions the file calls are modelled from their
  documented contract, under their own names.
* A callback `func (a, user_data)` is a state transformer on `user_data`.  The
  attribute callback of the intersection returns a value that is discarded at
  the call site; the media callback of `sdp_utils_for_each_media` returns the
  flag that the loop tests, next to the new state.
* A loop that has no bound in the source runs on a number of iterations that
  is proved to suffice.
-/

namespace SdpUtils

/-! ## Data model -/

/-- GStreamer `GstSDPAttribute`: a key and an optional value. -/
structure GstSDPAttribute where
  key : String
  value : Option String
deriving DecidableEq, Repr

/-- GStreamer `GstSDPMedia`, restricted to the fields that describe the media
line and its ordered attribute array. -/
structure GstSDPMedia where
  media : String
  proto : String
  fmts : List String
  attributes : List GstSDPAttribute
deriving DecidableEq, Repr

/-- GStreamer `GstSDPMessage`, restricted to the session-level attribute array
and the ordered media array. -/
structure GstSDPMessage where
  attributes : List GstSDPAttribute
  medias : List GstSDPMedia
deriving DecidableEq, Repr

/-- Modelled from the spec: the enum `GstSDPDirection` is declared in
`sdp_utils.h`, which is not among the sources.  The spec lists the enum as
SENDONLY, RECVONLY, SENDRECV, INACTIVE, the order of the `directions` table of
`sdp_utils.c` whose index the code stores into a `GstSDPDirection`. -/
inductive GstSDPDirection where
  | SENDONLY
  | RECVONLY
  | SENDRECV
  | INACTIVE
deriving DecidableEq, Repr

/-- The assignment of a table index to a `GstSDPDirection` lvalue,
`*direction = i`.  The table has four entries, so only 0..3 occur. -/
def GstSDPDirection.ofIndex : Nat → GstSDPDirection
  | 0 => .SENDONLY
  | 1 => .RECVONLY
  | 2 => .SENDRECV
  | _ => .INACTIVE

/-- Result of a C expression that may read outside an array: `ok v` when the
evaluation is defined and yields `v`, `undefined` when it reads out of bounds. -/
inductive Outcome (α : Type) where
  | ok (v : α)
  | undefined
deriving DecidableEq, Repr

/-! ## Library functions (GLib, libc, GStreamer) -/

/-- GLib `g_ascii_isdigit`. -/
def g_ascii_isdigit (c : Char) : Bool :=
  decide ('0' ≤ c) && decide (c ≤ '9')

/-- GLib `g_ascii_isupper`. -/
def g_ascii_isupper (c : Char) : Bool :=
  decide ('A' ≤ c) && decide (c ≤ 'Z')

/-- GLib `g_ascii_tolower`: `g_ascii_isupper (c) ? c - 'A' + 'a' : c`. -/
def g_ascii_tolower (c : Char) : Char :=
  if g_ascii_isupper c then Char.ofNat (c.toNat - 'A'.toNat + 'a'.toNat) else c

/-- GLib `g_ascii_strcasecmp`: 0 when the two strings are equal once ASCII
upper-case letters are folded to lower case, otherwise negative or positive
according to the order of the folded strings. -/
def g_ascii_strcasecmp (s1 s2 : String) : Int :=
  let a := s1.data.map g_ascii_tolower
  let b := s2.data.map g_ascii_tolower
  if a = b then 0 else if a < b then -1 else 1

/-- GLib `g_strcmp0`: `strcmp` that accepts `NULL`, which sorts before every
string and equals only `NULL`. -/
def g_strcmp0 (str1 str2 : Option String) : Int :=
  match str1, str2 with
  | none, none => 0
  | none, some _ => -1
  | some _, none => 1
  | some a, some b => if a = b then 0 else if a.data < b.data then -1 else 1

/-- GLib `g_str_has_prefix`: `FALSE` when either argument is `NULL`. -/
def g_str_has_prefix (str pfx : Option String) : Bool :=
  match str, pfx with
  | some s, some p => p.data.isPrefixOf s.data
  | _, _ => false

/-- The search of `g_strstr_len (haystack, -1, needle)` on character lists:
the suffix of the haystack that starts at the first occurrence of the needle. -/
def strstr_chars : List Char → List Char → Option (List Char)
  | [], needle => if needle = [] then some [] else none
  | c :: cs, needle =>
    if needle.isPrefixOf (c :: cs) then some (c :: cs) else strstr_chars cs needle

/-- GLib `g_strstr_len (haystack, -1, needle)`: a pointer to the first
occurrence of the needle, that is the suffix starting there, or `NULL`. -/
def g_strstr_len (haystack : Option String) (needle : String) : Option String :=
  match haystack with
  | none => none
  | some h => (strstr_chars h.data needle.data).map String.mk

/-- Value of a run of decimal digits, most significant first. -/
def decimalValue (cs : List Char) : Nat :=
  cs.foldl (fun n c => 10 * n + (c.toNat - '0'.toNat)) 0

/-- Saturation of an integer to the range of a 64-bit signed integer (`long`,
`gint64`). -/
def clamp64 (z : Int) : Int :=
  if z > 2 ^ 63 - 1 then 2 ^ 63 - 1
  else if z < -(2 ^ 63) then -(2 ^ 63)
  else z

/-- Conversion of an integer to a 32-bit signed `int` by wrap-around. -/
def wrap32 (z : Int) : Int :=
  let m := z % 2 ^ 32
  if m < 2 ^ 31 then m else m - 2 ^ 32

/-- C `isspace` in the C locale. -/
def isspace (c : Char) : Bool :=
  c = ' ' || c = '\t' || c = '\n' || c = '\x0b' || c = '\x0c' || c = '\r'

/-- C `atoi`, which glibc defines as `(int) strtol (s, NULL, 10)`: skip white
space, read an optional sign and the following run of decimal digits, saturate
the value to the range of `long` (`strtol` returns `LONG_MAX` or `LONG_MIN`
for a value outside it), and convert the `long` to `int` by wrap-around modulo
2^32. -/
def atoi (s : String) : Int :=
  let n (ds : List Char) : Int := (decimalValue (ds.takeWhile g_ascii_isdigit) : Nat)
  match s.data.dropWhile isspace with
  | [] => wrap32 (clamp64 (n []))
  | c :: ds =>
    if c = '-' then wrap32 (clamp64 (- n ds))
    else if c = '+' then wrap32 (clamp64 (n ds))
    else wrap32 (clamp64 (n (c :: ds)))

/-- GStreamer `gst_sdp_attribute_set`: fill an attribute with copies of key
and value; `GST_SDP_EINVAL` (`none`) when the key is `NULL`. -/
def gst_sdp_attribute_set (key value : Option String) : Option GstSDPAttribute :=
  match key with
  | none => none
  | some k => some { key := k, value := value }

/-- The scan of `gst_sdp_media_get_attribute_val_n` over the attribute array. -/
def attribute_val_n (key : String) : List GstSDPAttribute → Nat → Option String
  | [], _ => none
  | attr :: rest, nth =>
    if attr.key = key then
      match nth with
      | 0 => attr.value
      | n + 1 => attribute_val_n key rest n
    else attribute_val_n key rest nth

/-- GStreamer `gst_sdp_media_get_attribute_val_n`: the value of the `nth`
attribute (from 0) whose key is `key` (compared with `strcmp`), or `NULL`. -/
def gst_sdp_media_get_attribute_val_n (media : GstSDPMedia) (key : String) (nth : Nat) :
    Option String :=
  attribute_val_n key media.attributes nth

/-! ## `sdp_utils.c` -/

def SENDONLY_STR : String := "sendonly"
def RECVONLY_STR : String := "recvonly"
def SENDRECV_STR : String := "sendrecv"
def INACTIVE_STR : String := "inactive"

/-- The table `directions` (its `NULL` terminator is the end of the list). -/
def directions : List String :=
  [SENDONLY_STR, RECVONLY_STR, SENDRECV_STR, INACTIVE_STR]

def RTPMAP : String := "rtpmap"

/-- The table `rtpmaps`: 35 slots, `NULL` slots are `none`. -/
def rtpmaps : List (Option String) := [
  some "PCMU/8000/1",
  none,
  none,
  some "GSM/8000/1",
  some "G723/8000/1",
  some "DVI4/8000/1",
  some "DVI4/16000/1",
  some "LPC/8000/1",
  some "PCMA/8000/1",
  some "G722/8000/1",
  some "L16/44100/2",
  some "L16/44100/1",
  some "QCELP/8000/1",
  some "CN/8000/1",
  some "MPA/90000",
  some "G728/8000/1",
  some "DVI4/11025/1",
  some "DVI4/22050/1",
  some "G729/8000/1",
  none,
  none,
  none,
  none,
  none,
  none,
  some "CelB/90000",
  some "JPEG/90000",
  none,
  some "nv/90000",
  none,
  none,
  some "H261/90000",
  some "MPV/90000",
  some "MP2T/90000",
  some "H263/90000"]

/-- The loop of `sdp_utils_attribute_is_direction` from index `i` on. -/
def attribute_is_direction_from (key : String) : List String → Nat → Option Nat
  | [], _ => none
  | d :: ds, i =>
    if g_ascii_strcasecmp key d == 0 then some i
    else attribute_is_direction_from key ds (i + 1)

/-- `sdp_utils_attribute_is_direction`: `some i` stands for `TRUE` with the
index `i` written to `*direction` (when the pointer is not `NULL`), `none`
for `FALSE`. -/
def sdp_utils_attribute_is_direction (attr : GstSDPAttribute) : Option Nat :=
  attribute_is_direction_from attr.key directions 0

/-- The loop of `sdp_utils_media_config_get_direction`; `dir` is the current
value of the local. -/
def config_get_direction_loop (dir : GstSDPDirection) :
    List GstSDPAttribute → GstSDPDirection
  | [] => dir
  | a :: rest =>
    match sdp_utils_attribute_is_direction a with
    | some i => GstSDPDirection.ofIndex i
    | none => config_get_direction_loop dir rest

/-- `sdp_utils_media_config_get_direction`. -/
def sdp_utils_media_config_get_direction (media : GstSDPMedia) : GstSDPDirection :=
  config_get_direction_loop GstSDPDirection.SENDRECV media.attributes

/-- The first loop of `sdp_utils_sdp_media_get_rtpmap`: the value of the local
`rtpmap` when the loop ends. -/
def rtpmap_search (format : String) : List GstSDPAttribute → Option String
  | [] => none
  | attr :: rest =>
    let rtpmap : Option String :=
      if g_ascii_strcasecmp RTPMAP attr.key == 0 then
        if g_str_has_prefix attr.value (some format) then
          match g_strstr_len attr.value " " with
          | some r => some (String.mk (r.data.drop 1))
          | none => none
        else none
      else none
    match rtpmap with
    | some r => some r
    | none => rtpmap_search format rest

/-- The read `rtpmaps[pt]`: defined for an index inside the 35-slot array. -/
def rtpmaps_read (pt : Int) : Outcome (Option String) :=
  if 0 ≤ pt ∧ pt < 35 then Outcome.ok (rtpmaps.getD pt.toNat none) else Outcome.undefined

/-- `sdp_utils_sdp_media_get_rtpmap`. -/
def sdp_utils_sdp_media_get_rtpmap (media : GstSDPMedia) (format : String) :
    Outcome (Option String) :=
  match rtpmap_search format media.attributes with
  | some r => Outcome.ok (some r)
  | none =>
    if format.data.all g_ascii_isdigit then
      let pt := atoi format
      if pt > 34 then Outcome.ok none else rtpmaps_read pt
    else Outcome.ok none

/-- `sdp_utils_add_setup_attribute`: `none` stands for `FALSE`, `some a` for
`TRUE` with `a` stored in `new_attr`. -/
def sdp_utils_add_setup_attribute (attr : GstSDPAttribute) : Option GstSDPAttribute :=
  if g_strcmp0 (some attr.key) (some "setup") != 0 then none
  else
    let setup : String :=
      if g_strcmp0 attr.value (some "active") == 0 then "passive"
      else if g_strcmp0 attr.value (some "passive") == 0 then "active"
      else if g_strcmp0 attr.value (some "actpass") == 0 then "active"
      else "holdconn"
    gst_sdp_attribute_set (some attr.key) (some setup)

/-- `sdp_utils_set_direction_answer`: `none` stands for `FALSE`, `some a` for
`TRUE` with `a` stored in `new_attr`. -/
def sdp_utils_set_direction_answer (attr : GstSDPAttribute) : Option GstSDPAttribute :=
  if g_ascii_strcasecmp attr.key SENDONLY_STR == 0 then
    gst_sdp_attribute_set (some RECVONLY_STR) (some "")
  else if g_ascii_strcasecmp attr.key RECVONLY_STR == 0 then
    gst_sdp_attribute_set (some SENDONLY_STR) (some "")
  else if g_ascii_strcasecmp attr.key SENDRECV_STR == 0 then
    gst_sdp_attribute_set (some SENDRECV_STR) (some "")
  else if g_ascii_strcasecmp attr.key INACTIVE_STR == 0 then
    gst_sdp_attribute_set (some INACTIVE_STR) (some "")
  else none

/-- The attribute `a` that `intersect_attribute` selects for the callback;
`none` when the function returns `FALSE` before reaching the callback. -/
def intersect_attribute_select (attr : GstSDPAttribute) : Option GstSDPAttribute :=
  if g_strcmp0 (some attr.key) (some "setup") == 0 then
    sdp_utils_add_setup_attribute attr
  else if g_strcmp0 (some attr.key) (some "connection") == 0 then
    gst_sdp_attribute_set (some "connection") (some "new")
  else if (sdp_utils_attribute_is_direction attr).isSome then
    sdp_utils_set_direction_answer attr
  else some attr

/-- `intersect_attribute`: the returned flag and the state of `user_data`
afterwards.  `func = none` is a `NULL` callback. -/
def intersect_attribute {σ : Type} (attr : GstSDPAttribute)
    (func : Option (GstSDPAttribute → σ → σ)) (user_data : σ) : Bool × σ :=
  match intersect_attribute_select attr with
  | none => (false, user_data)
  | some a =>
    match func with
    | some f => (true, f a user_data)
    | none => (true, user_data)

/-- The loop shared by `sdp_utils_intersect_session_attributes` and
`sdp_utils_intersect_media_attributes`. -/
def intersect_attributes_loop {σ : Type} (func : Option (GstSDPAttribute → σ → σ)) :
    List GstSDPAttribute → σ → Bool × σ
  | [], user_data => (true, user_data)
  | attr :: rest, user_data =>
    match intersect_attribute attr func user_data with
    | (false, ud) => (false, ud)
    | (true, ud) => intersect_attributes_loop func rest ud

/-- `sdp_utils_intersect_session_attributes`. -/
def sdp_utils_intersect_session_attributes {σ : Type} (msg : GstSDPMessage)
    (func : Option (GstSDPAttribute → σ → σ)) (user_data : σ) : Bool × σ :=
  intersect_attributes_loop func msg.attributes user_data

/-- `sdp_utils_intersect_media_attributes`. -/
def sdp_utils_intersect_media_attributes {σ : Type} (offer : GstSDPMedia)
    (func : Option (GstSDPAttribute → σ → σ)) (user_data : σ) : Bool × σ :=
  intersect_attributes_loop func offer.attributes user_data

/-- `sdp_utils_media_is_active`: `true` when the local side is the active one. -/
def sdp_utils_media_is_active (media : GstSDPMedia) (offerer : Bool) : Bool :=
  match gst_sdp_media_get_attribute_val_n media "setup" 0 with
  | none => !offerer
  | some attr =>
    if offerer then
      if g_strcmp0 (some attr) (some "active") == 0 then false
      else if g_strcmp0 (some attr) (some "passive") == 0 then true
      else !offerer
    else
      if g_strcmp0 (some attr) (some "active") == 0 then true
      else if g_strcmp0 (some attr) (some "passive") == 0 then false
      else !offerer

/-! ## Library functions of the remaining helpers -/

/-- The pieces of a character list split at every occurrence of `delim`. -/
def split_chars (delim : Char) : List Char → List (List Char)
  | [] => [[]]
  | c :: cs =>
    if c = delim then [] :: split_chars delim cs
    else
      match split_chars delim cs with
      | [] => [[c]]
      | piece :: pieces => (c :: piece) :: pieces

/-- GLib `g_strsplit (string, delimiter, 0)` for a one-character delimiter:
the pieces between the delimiters; the empty string gives the empty vector. -/
def g_strsplit (string : String) (delimiter : Char) : List String :=
  if string.data = [] then [] else (split_chars delimiter string.data).map String.mk

/-- The loop of `sdp_utils_get_attr_map_value` from index `i` on, run for at
most `fuel` iterations: `none` when the iterations are used up before the loop
returns, `some r` when it returns `r`. -/
def get_attr_map_value_loop (media : GstSDPMedia) (name : String) (fmt : Option String) :
    Nat → Nat → Option (Option String)
  | 0, _ => none
  | fuel + 1, i =>
    match gst_sdp_media_get_attribute_val_n media name i with
    | none => some none
    | some val =>
      let attrs := g_strsplit val ' '
      if g_strcmp0 fmt attrs.head? == 0 then some (some val)
      else get_attr_map_value_loop media name fmt fuel (i + 1)

/-- `sdp_utils_get_attr_map_value`, with one iteration more than the media has
attributes, which the loop never exceeds (`get_attr_map_value_returns`). -/
def sdp_utils_get_attr_map_value (media : GstSDPMedia) (name : String) (fmt : Option String) :
    Option (Option String) :=
  get_attr_map_value_loop media name fmt (media.attributes.length + 1) 0

/-- The loop of `sdp_utils_for_each_media`.  The callback returns a flag and
the new state of `user_data`. -/
def for_each_media_loop {σ : Type} (func : GstSDPMedia → σ → Bool × σ) :
    List GstSDPMedia → σ → Bool × σ
  | [], user_data => (true, user_data)
  | media :: rest, user_data =>
    match func media user_data with
    | (false, ud) => (false, ud)
    | (true, ud) => for_each_media_loop func rest ud

/-- `sdp_utils_for_each_media`. -/
def sdp_utils_for_each_media {σ : Type} (msg : GstSDPMessage)
    (func : GstSDPMedia → σ → Bool × σ) (user_data : σ) : Bool × σ :=
  for_each_media_loop func msg.medias user_data

/-- The loop of `sdp_utils_is_attribute_in_media`. -/
def is_attribute_in_media_loop (attr : GstSDPAttribute) : List GstSDPAttribute → Bool
  | [] => false
  | a :: rest =>
    if g_strcmp0 (some attr.key) (some a.key) == 0 && g_strcmp0 attr.value a.value == 0 then true
    else is_attribute_in_media_loop attr rest

/-- `sdp_utils_is_attribute_in_media`. -/
def sdp_utils_is_attribute_in_media (media : GstSDPMedia) (attr : GstSDPAttribute) : Bool :=
  is_attribute_in_media_loop attr media.attributes

/-! ## Vocabulary of the statements -/

/-- Two strings are equal up to the case of their ASCII letters. -/
def EqIgnoreAsciiCase (a b : String) : Prop :=
  a.data.map g_ascii_tolower = b.data.map g_ascii_tolower

instance (a b : String) : Decidable (EqIgnoreAsciiCase a b) :=
  inferInstanceAs (Decidable (a.data.map g_ascii_tolower = b.data.map g_ascii_tolower))

/-- The key of the attribute matches one of the four direction tokens, case
ignored. -/
def IsDirectionKey (key : String) : Prop :=
  EqIgnoreAsciiCase key "sendonly" ∨ EqIgnoreAsciiCase key "recvonly" ∨
  EqIgnoreAsciiCase key "sendrecv" ∨ EqIgnoreAsciiCase key "inactive"

instance (key : String) : Decidable (IsDirectionKey key) :=
  inferInstanceAs (Decidable (_ ∨ _ ∨ _ ∨ _))

/-- Intersecting `attr` succeeds and hands `out` to the visitor: whatever the
(non-`NULL`) visitor and the state of its `user_data`, `intersect_attribute`
returns `TRUE` and the state afterwards is that of one visitor call on `out`. -/
def HandsVisitor (attr out : GstSDPAttribute) : Prop :=
  ∀ (σ : Type) (f : GstSDPAttribute → σ → σ) (user_data : σ),
    intersect_attribute attr (some f) user_data = (true, f out user_data)

/-- Intersecting `attr` never fails: it returns `TRUE` for every visitor,
`NULL` included. -/
def NeverFails (attr : GstSDPAttribute) : Prop :=
  ∀ (σ : Type) (func : Option (GstSDPAttribute → σ → σ)) (user_data : σ),
    (intersect_attribute attr func user_data).1 = true

/-- The answer to a setup value in the words of the specification (§4.1):
active gives passive, passive gives active, actpass gives active, anything
else holdconn. -/
def spec_setup_answer (v : Option String) : String :=
  if v = some "active" then "passive"
  else if v = some "passive" then "active"
  else if v = some "actpass" then "active"
  else "holdconn"

/-- The intersection rule in the words of the specification (§4.1), as a
total function on attributes: setup, connection, direction, identity. -/
def spec_intersect (attr : GstSDPAttribute) : GstSDPAttribute :=
  if attr.key = "setup" then ⟨"setup", some (spec_setup_answer attr.value)⟩
  else if attr.key = "connection" then ⟨"connection", some "new"⟩
  else if EqIgnoreAsciiCase attr.key "sendonly" then ⟨"recvonly", some ""⟩
  else if EqIgnoreAsciiCase attr.key "recvonly" then ⟨"sendonly", some ""⟩
  else if EqIgnoreAsciiCase attr.key "sendrecv" then ⟨"sendrecv", some ""⟩
  else if EqIgnoreAsciiCase attr.key "inactive" then ⟨"inactive", some ""⟩
  else attr

/-- The visitor that records the attributes it is handed, in call order. -/
def record_visitor (a : GstSDPAttribute) (seen : List GstSDPAttribute) :
    List GstSDPAttribute :=
  seen ++ [a]

/-- The attribute `a` is the first element of `l`, in list order, that
satisfies `p`. -/
def FirstWith {α : Type} (p : α → Prop) (l : List α) (a : α) : Prop :=
  ∃ pre post, l = pre ++ a :: post ∧ (∀ b ∈ pre, ¬ p b) ∧ p a

/-- The part of a string after its first space. -/
def after_first_space (v : String) : String :=
  String.mk ((v.data.dropWhile (fun c => c != ' ')).drop 1)

/-- The value is present, starts with the format id and contains a space. -/
def value_matches (format : String) (a : GstSDPAttribute) : Prop :=
  ∃ v, a.value = some v ∧ format.data <+: v.data ∧ ' ' ∈ v.data

/-- An rtpmap attribute that matches the format id, the key being compared
up to ASCII case as the explicit search of `sdp_utils_sdp_media_get_rtpmap`
compares it. -/
def rtpmap_matches (format : String) (a : GstSDPAttribute) : Prop :=
  EqIgnoreAsciiCase a.key "rtpmap" ∧ value_matches format a

/-- An attribute whose key is exactly "rtpmap" and whose value matches the
format id. -/
def rtpmap_matches_exact_key (format : String) (a : GstSDPAttribute) : Prop :=
  a.key = "rtpmap" ∧ value_matches format a

/-- The explicit-rtpmap rule with the key compared exactly: whenever `a` is
the first attribute of the media with key "rtpmap" whose value starts with
the format id and contains a space, the lookup returns the part of that value
after its first space. -/
def rtpmap_rule_exact_key (media : GstSDPMedia) (format : String) : Prop :=
  ∀ a v, FirstWith (rtpmap_matches_exact_key format) media.attributes a → a.value = some v →
    sdp_utils_sdp_media_get_rtpmap media format = Outcome.ok (some (after_first_space v))

/-- A media block with an upper-case RTPMAP attribute before an rtpmap one. -/
def upper_case_rtpmap_media : GstSDPMedia :=
  ⟨"audio", "RTP/AVP", ["0"], [⟨"RTPMAP", some "0 X/1"⟩, ⟨"rtpmap", some "0 Y/2"⟩]⟩

/-- The values of the attributes with key `name`, in attribute order; a
missing value is `none`. -/
def same_name_values (name : String) (attrs : List GstSDPAttribute) : List (Option String) :=
  (attrs.filter (fun a => decide (a.key = name))).map (fun a => a.value)

/-- The leading token of a value: the text before its first space (the whole
value when it has no space); the empty value has no token. -/
def leading_token (v : String) : Option String :=
  if v.data = [] then none else some (String.mk (v.data.takeWhile (fun c => c != ' ')))

/-- The scan that the loop of `sdp_utils_get_attr_map_value` performs over the
values of the attributes named `name`: it ends at the first missing value. -/
def attr_map_scan (fmt : Option String) : List (Option String) → Option String
  | [] => none
  | none :: _ => none
  | some v :: rest => if leading_token v = fmt then some v else attr_map_scan fmt rest

/-- A media block whose first fmtp attribute has no value. -/
def valueless_fmtp_media : GstSDPMedia :=
  ⟨"video", "RTP/AVP", ["96"], [⟨"fmtp", none⟩, ⟨"fmtp", some "96 profile-level-id=42e01f"⟩]⟩

/-- The answer-direction transform on a direction token: the key of the
attribute that `sdp_utils_set_direction_answer` builds for an attribute with
that key, or `none` when the function fails. -/
def direction_answer_token (d : String) : Option String :=
  (sdp_utils_set_direction_answer ⟨d, none⟩).map (fun a => a.key)

/-- The number of direction attributes of an attribute list: the attributes
whose key `sdp_utils_attribute_is_direction` accepts (a direction token, case
ignored). -/
def direction_count (attrs : List GstSDPAttribute) : Nat :=
  attrs.countP (fun a => decide (IsDirectionKey a.key))

/-- The callback `func` instrumented with a trace: next to the state of
`user_data` it keeps the list of the calls made so far, each with the media
block it was made on and the flag it returned. -/
def traced_visitor {σ : Type} (func : GstSDPMedia → σ → Bool × σ) (media : GstSDPMedia)
    (st : σ × List (GstSDPMedia × Bool)) : Bool × (σ × List (GstSDPMedia × Bool)) :=
  ((func media st.1).1, ((func media st.1).2, st.2 ++ [(media, (func media st.1).1)]))

/-- The calls that `sdp_utils_for_each_media` makes to `func`, in call order. -/
def for_each_media_trace {σ : Type} (msg : GstSDPMessage)
    (func : GstSDPMedia → σ → Bool × σ) (user_data : σ) : List (GstSDPMedia × Bool) :=
  (sdp_utils_for_each_media msg (traced_visitor func) (user_data, [])).2.2

/-! ## The RTP media handlers

The sources hold only the declarations of the handlers
(`kmssdprtpavpmediahandler.h`, `kmssdprtpavpfmediahandler.h`); their bodies
and the interface `KmsISdpPayloadManager` are modelled from the specification
(§3, §4.3, §4.4, §7). -/

/-- Modelled from the spec: the error taxonomy of §7, as far as the handlers
raise it, with the "no common format" condition of §4.3.  The `GError` codes
of the handler sources are missing. -/
inductive HandlerError where
  | UnsupportedCodec
  | NoPayloadManager
  | NoPayloadTypeAvailable
  | UnknownPayloadType
  | InvalidExtmapId
  | DuplicateExtmapId
  | NoCommonFormat
deriving DecidableEq, Repr

/-- Modelled from the spec: the outcome of a handler call, a value or an error
returned synchronously (§7).  The sources return a flag or a number and set a
`GError`. -/
inductive HandlerResult (α : Type) where
  | ok (v : α)
  | error (e : HandlerError)
deriving DecidableEq, Repr

/-- Modelled from the spec: PayloadEntry of §3, the private data of the
handler not being among the sources: payload-type number, codec name or raw
format token, whether the entry was registered as a generic payload, optional
fmtp string, optional feedback-type set (AVPF only). -/
structure PayloadEntry where
  payload : Nat
  format : String
  generic : Bool
  fmtp : Option String
  feedback : Option (List String)
deriving DecidableEq, Repr

/-- Modelled from the spec: ExtmapEntry of §3 (extension id and URI), the
private data of the handler not being among the sources. -/
structure ExtmapEntry where
  ext_id : Nat
  uri : String
deriving DecidableEq, Repr

/-- Modelled from the spec: the capability PayloadManager of §2 and §4.3,
whose interface `kmsisdppayloadmanager.h` is missing.  `allocate used` is the
answer to a request by a handler whose entries use the payload types `used`:
a number of the dynamic range 96..127 that the handler does not use yet, or
nothing. -/
structure KmsISdpPayloadManager where
  allocate : List Nat → Option Nat
  in_range : ∀ used n, allocate used = some n → 96 ≤ n ∧ n ≤ 127
  fresh : ∀ used n, allocate used = some n → n ∉ used

/-- Modelled from the spec: the state of an AVP handler (§4.3), the struct
`KmsSdpRtpAvpMediaHandlerPrivate` being missing: ordered payload entries,
ordered extmap entries, optionally bound payload manager. -/
structure KmsSdpRtpAvpMediaHandler where
  payloads : List PayloadEntry
  extmaps : List ExtmapEntry
  manager : Option KmsISdpPayloadManager

/-- Modelled from the spec: the state of an AVPF handler (§4.4), the struct
`KmsSdpRtpAvpfMediaHandlerPrivate` being missing: the AVP state, whose payload
entries carry their feedback sets, and the wildcard feedback entry. -/
structure KmsSdpRtpAvpfMediaHandler where
  parent : KmsSdpRtpAvpMediaHandler
  wildcard_feedback : Option (List String)

/-- Modelled from the spec: `kms_sdp_rtp_avp_media_handler_new`, whose body is
missing: a handler without registrations and without payload manager. -/
def kms_sdp_rtp_avp_media_handler_new : KmsSdpRtpAvpMediaHandler :=
  { payloads := [], extmaps := [], manager := none }

/-- Modelled from the spec: `kms_sdp_rtp_avp_media_handler_add_extmap`, whose
body is missing (§4.3 addExtmap).  The id must be in 1..14, else
InvalidExtmapId; an entry for the id with another URI gives DuplicateExtmapId;
the same URI again is a success without effect.  A failed call leaves the
handler as it was (§7). -/
def kms_sdp_rtp_avp_media_handler_add_extmap (self : KmsSdpRtpAvpMediaHandler) (id : Nat)
    (uri : String) : HandlerResult Unit × KmsSdpRtpAvpMediaHandler :=
  if id < 1 ∨ 14 < id then (HandlerResult.error HandlerError.InvalidExtmapId, self)
  else
    match self.extmaps.find? (fun e => decide (e.ext_id = id)) with
    | some e =>
      if e.uri = uri then (HandlerResult.ok (), self)
      else (HandlerResult.error HandlerError.DuplicateExtmapId, self)
    | none => (HandlerResult.ok (), { self with extmaps := self.extmaps ++ [⟨id, uri⟩] })

/-- Modelled from the spec: `kms_sdp_rtp_avp_media_handler_use_payload_manager`,
whose body is missing (§4.3 usePayloadManager): a later binding replaces the
former one. -/
def kms_sdp_rtp_avp_media_handler_use_payload_manager (self : KmsSdpRtpAvpMediaHandler)
    (manager : KmsISdpPayloadManager) : HandlerResult Unit × KmsSdpRtpAvpMediaHandler :=
  (HandlerResult.ok (), { self with manager := some manager })

/-- The payload types that the entries of the handler use. -/
def used_payloads (self : KmsSdpRtpAvpMediaHandler) : List Nat :=
  self.payloads.map (fun e => e.payload)

/-- Modelled from the spec: the body shared by addGenericAudioPayload and
addGenericVideoPayload (§4.3), which is missing.  Without a bound manager the
call fails with NoPayloadManager; when the manager allocates nothing it fails
with NoPayloadTypeAvailable; otherwise an entry is appended and the allocated
number returned.  A failed call leaves the handler as it was (§7). -/
def add_generic_payload (self : KmsSdpRtpAvpMediaHandler) (format : String) :
    HandlerResult Nat × KmsSdpRtpAvpMediaHandler :=
  match self.manager with
  | none => (HandlerResult.error HandlerError.NoPayloadManager, self)
  | some manager =>
    match manager.allocate (used_payloads self) with
    | none => (HandlerResult.error HandlerError.NoPayloadTypeAvailable, self)
    | some pt =>
      (HandlerResult.ok pt,
        { self with payloads := self.payloads ++ [⟨pt, format, true, none, none⟩] })

/-- Modelled from the spec:
`kms_sdp_rtp_avp_media_handler_add_generic_audio_payload`, whose body is
missing. -/
def kms_sdp_rtp_avp_media_handler_add_generic_audio_payload (self : KmsSdpRtpAvpMediaHandler)
    (format : String) : HandlerResult Nat × KmsSdpRtpAvpMediaHandler :=
  add_generic_payload self format

/-- Modelled from the spec:
`kms_sdp_rtp_avp_media_handler_add_generic_video_payload`, whose body is
missing. -/
def kms_sdp_rtp_avp_media_handler_add_generic_video_payload (self : KmsSdpRtpAvpMediaHandler)
    (format : String) : HandlerResult Nat × KmsSdpRtpAvpMediaHandler :=
  add_generic_payload self format

/-- A call of one of the two generic-payload registrations. -/
inductive GenericPayloadCall where
  | audio (format : String)
  | video (format : String)
deriving DecidableEq, Repr

/-- The effect of one generic-payload call. -/
def add_generic_call (self : KmsSdpRtpAvpMediaHandler) :
    GenericPayloadCall → HandlerResult Nat × KmsSdpRtpAvpMediaHandler
  | GenericPayloadCall.audio format =>
    kms_sdp_rtp_avp_media_handler_add_generic_audio_payload self format
  | GenericPayloadCall.video format =>
    kms_sdp_rtp_avp_media_handler_add_generic_video_payload self format

/-- Successive generic-payload calls: their results in call order and the
handler afterwards. -/
def add_generic_calls (self : KmsSdpRtpAvpMediaHandler) :
    List GenericPayloadCall → List (HandlerResult Nat) × KmsSdpRtpAvpMediaHandler
  | [] => ([], self)
  | c :: cs =>
    ((add_generic_call self c).1 :: (add_generic_calls (add_generic_call self c).2 cs).1,
     (add_generic_calls (add_generic_call self c).2 cs).2)

/-- The payload-type numbers returned by the calls that succeeded. -/
def allocated_payloads : List (HandlerResult Nat) → List Nat
  | [] => []
  | HandlerResult.ok pt :: rest => pt :: allocated_payloads rest
  | HandlerResult.error _ :: rest => allocated_payloads rest

/-- The first number of 96..127 that is not in use. -/
def first_free_payload (used : List Nat) : Option Nat :=
  (List.range' 96 32).find? (fun n => decide (n ∉ used))

/-- A payload manager that hands out the lowest free number of 96..127. -/
def first_free_manager : KmsISdpPayloadManager where
  allocate := first_free_payload
  in_range := by
    intro used n h
    have hm := List.mem_of_find?_eq_some h
    rw [List.mem_range'_1] at hm
    omega
  fresh := by
    intro used n h
    have hp := List.find?_some h
    simpa using hp

/-- The feedback tokens configured for an entry of an AVPF handler: its own
feedback set, or the wildcard entry when it has none (§4.4). -/
def local_feedback (self : KmsSdpRtpAvpfMediaHandler) (e : PayloadEntry) : List String :=
  match e.feedback with
  | some fb => fb
  | none => self.wildcard_feedback.getD []

/-- The tokens of the rtcp-fb attributes of a media block whose leading token
is `id` (a payload-type number or "*"). -/
def rtcp_fb_tokens (peer : GstSDPMedia) (id : String) : List String :=
  peer.attributes.filterMap (fun a =>
    if a.key = "rtcp-fb" then
      match a.value with
      | some v => if leading_token v = some id then some (after_first_space v) else none
      | none => none
    else none)

/-- The feedback tokens that a peer advertises for a payload type: those of
its rtcp-fb attributes for that payload type, or those of its wildcard
attributes when it has none for the payload type (§4.4). -/
def peer_feedback (peer : GstSDPMedia) (payload : Nat) : List String :=
  if rtcp_fb_tokens peer (toString payload) = [] then rtcp_fb_tokens peer "*"
  else rtcp_fb_tokens peer (toString payload)

/-- An entry is retained when its payload type, or its format token for a
generic payload, appears in the format list of the peer (§4.3). -/
def entry_retained (peer : GstSDPMedia) (e : PayloadEntry) : Bool :=
  if e.generic then decide (e.format ∈ peer.fmts) || decide (toString e.payload ∈ peer.fmts)
  else decide (toString e.payload ∈ peer.fmts)

/-- Modelled from the spec: reduce-against-offer of an AVPF handler (§4.3,
§4.4), whose body is missing.  The retained entries keep the order of the
handler; the feedback set of each is the intersection of the tokens
configured for it with the tokens the peer advertises for its payload type;
an empty result is the "no common format" failure. -/
def avpf_reduce_against_offer (self : KmsSdpRtpAvpfMediaHandler) (peer : GstSDPMedia) :
    HandlerResult (List PayloadEntry) :=
  let kept := (self.parent.payloads.filter (entry_retained peer)).map (fun e =>
    PayloadEntry.mk e.payload e.format e.generic e.fmtp
      (some ((local_feedback self e).filter (fun t => decide (t ∈ peer_feedback peer e.payload)))))
  if kept = [] then HandlerResult.error HandlerError.NoCommonFormat else HandlerResult.ok kept

/-- An AVPF handler with one payload, PT 100, and the feedback set
{"nack", "ccm fir"}. -/
def avpf_handler_pt100 : KmsSdpRtpAvpfMediaHandler :=
  { parent := { payloads := [⟨100, "VP8/90000", false, none, some ["nack", "ccm fir"]⟩],
                extmaps := [], manager := none },
    wildcard_feedback := none }

/-- A peer offer whose PT 100 advertises the feedback token "nack". -/
def peer_offer_pt100_nack : GstSDPMedia :=
  ⟨"video", "RTP/AVP", ["100"],
    [⟨"rtpmap", some "100 VP8/90000"⟩, ⟨"rtcp-fb", some "100 nack"⟩]⟩

/-- A new handler bound to the manager that hands out the lowest free number. -/
def handler_with_first_free_manager : KmsSdpRtpAvpMediaHandler :=
  (kms_sdp_rtp_avp_media_handler_use_payload_manager kms_sdp_rtp_avp_media_handler_new
    first_free_manager).2

/-- The visitor that counts its calls. -/
def count_visitor (_a : GstSDPAttribute) (calls : Nat) : Nat :=
  calls + 1

/-- The reverse of a direction: sendonly and recvonly are exchanged, sendrecv
and inactive are fixed. -/
def reverse_direction : GstSDPDirection → GstSDPDirection
  | GstSDPDirection.SENDONLY => GstSDPDirection.RECVONLY
  | GstSDPDirection.RECVONLY => GstSDPDirection.SENDONLY
  | GstSDPDirection.SENDRECV => GstSDPDirection.SENDRECV
  | GstSDPDirection.INACTIVE => GstSDPDirection.INACTIVE

/-- The media block whose attributes are those that
`sdp_utils_intersect_media_attributes` hands to the visitor, in call order. -/
def intersected_media (media : GstSDPMedia) : GstSDPMedia :=
  { media with
    attributes := (sdp_utils_intersect_media_attributes media (some record_visitor) []).2 }

/-! ## The hub (`src/gst-plugins/commons/kmsbasehub.c`)

The hub is a GStreamer bin; of its state the embedding keeps the ghost pads of
the element and whether it is at least paused.  The lock of the hub is not
modelled: a callback is followed from its entry to its return. -/

/-- GStreamer `GstPadDirection`. -/
inductive GstPadDirection where
  | GST_PAD_UNKNOWN
  | GST_PAD_SRC
  | GST_PAD_SINK
deriving DecidableEq, Repr

/-- GStreamer `GstPad`, restricted to the name and the direction of the pad. -/
structure GstPad where
  name : String
  direction : GstPadDirection
deriving DecidableEq, Repr

/-- A ghost pad of the hub: its name, the name of its template, its target,
whether it was activated, and the pad linked to it. -/
structure GstGhostPad where
  name : String
  template_name : String
  target : GstPad
  active : Bool
  peer : Option GstPad
deriving DecidableEq, Repr

/-- `KmsBaseHub`, restricted to the pads of the element and to the test
`GST_STATE (hub) >= GST_STATE_PAUSED || GST_STATE_PENDING (hub) >=
GST_STATE_PAUSED || GST_STATE_TARGET (hub) >= GST_STATE_PAUSED`. -/
structure KmsBaseHub where
  pads : List GstGhostPad
  paused_or_more : Bool
deriving DecidableEq, Repr

/-- `KmsBaseHubPortData`, restricted to the id and the two sink targets; the
hub the port belongs to is passed next to it. -/
structure KmsBaseHubPortData where
  id : Int
  audio_sink_target : Option GstPad
  video_sink_target : Option GstPad
deriving DecidableEq, Repr

def AUDIO_SINK_PAD_PREFIX : String := "audio_sink_"
def VIDEO_SINK_PAD_PREFIX : String := "video_sink_"
def AUDIO_SINK_PAD_NAME : String := "audio_sink_%u"
def VIDEO_SINK_PAD_NAME : String := "video_sink_%u"

/-- `kms_base_hub_create_and_link_ghost_pad`: the returned flag and the hub
afterwards.  `gst_ghost_pad_new_from_template` yields no pad for a `NULL`
target, and `gst_element_add_pad` then fails; it also fails when the hub has
a pad of that name already.  After a successful `gst_element_add_pad` the
source pad is linked to the ghost pad. -/
def kms_base_hub_create_and_link_ghost_pad (hub : KmsBaseHub) (src_pad : GstPad)
    (gp_name gp_template_name : String) (target : Option GstPad) : Bool × KmsBaseHub :=
  match target with
  | none => (false, hub)
  | some t =>
    if hub.pads.any (fun p => decide (p.name = gp_name)) then (false, hub)
    else
      (true, { hub with
        pads := hub.pads ++ [⟨gp_name, gp_template_name, t, hub.paused_or_more, some src_pad⟩] })

/-- `endpoint_pad_added`: the hub after the callback. -/
def endpoint_pad_added (hub : KmsBaseHub) (pad : GstPad) (port_data : KmsBaseHubPortData) :
    KmsBaseHub :=
  if pad.direction ≠ GstPadDirection.GST_PAD_SRC ∨
      ¬ g_str_has_prefix (some pad.name) (some "hub") = true then hub
  else if port_data.video_sink_target ≠ none ∧
      (g_strstr_len (some pad.name) "video").isSome = true then
    (kms_base_hub_create_and_link_ghost_pad hub pad
      (VIDEO_SINK_PAD_PREFIX ++ toString port_data.id) VIDEO_SINK_PAD_NAME
      port_data.video_sink_target).2
  else if port_data.video_sink_target ≠ none ∧
      (g_strstr_len (some pad.name) "audio").isSome = true then
    (kms_base_hub_create_and_link_ghost_pad hub pad
      (AUDIO_SINK_PAD_PREFIX ++ toString port_data.id) AUDIO_SINK_PAD_NAME
      port_data.audio_sink_target).2
  else hub

/-- A hub without pads. -/
def empty_hub : KmsBaseHub :=
  { pads := [], paused_or_more := true }

/-- The source pad "hub_audio_src" of a port. -/
def hub_audio_src_pad : GstPad :=
  ⟨"hub_audio_src", GstPadDirection.GST_PAD_SRC⟩

/-- A port with id 3 whose audio sink target is set and whose video sink
target is not. -/
def audio_only_port : KmsBaseHubPortData :=
  { id := 3, audio_sink_target := some ⟨"sink_0", GstPadDirection.GST_PAD_SINK⟩,
    video_sink_target := none }

/-- A port with id 3 whose two sink targets are set. -/
def audio_video_port : KmsBaseHubPortData :=
  { id := 3, audio_sink_target := some ⟨"sink_0", GstPadDirection.GST_PAD_SINK⟩,
    video_sink_target := some ⟨"sink_1", GstPadDirection.GST_PAD_SINK⟩ }

/-- Intersecting an attribute with the key `key` answers with the direction
`token`: whatever value the attribute carries, the visitor is handed the
attribute (`token`, "") and the iteration over an attribute list continues
with the attributes after it. -/
def AnswersDirection (key token : String) : Prop :=
  ∀ v : Option String,
    HandsVisitor ⟨key, v⟩ ⟨token, some ""⟩ ∧
    ∀ (σ : Type) (f : GstSDPAttribute → σ → σ) (rest : List GstSDPAttribute) (ud : σ),
      intersect_attributes_loop (some f) (⟨key, v⟩ :: rest) ud
        = intersect_attributes_loop (some f) rest (f ⟨token, some ""⟩ ud)

/-! ## Lemmas on the library functions -/

theorem g_ascii_strcasecmp_eq_zero_iff (s t : String) :
    g_ascii_strcasecmp s t = 0 ↔ EqIgnoreAsciiCase s t := by
  unfold g_ascii_strcasecmp EqIgnoreAsciiCase
  constructor
  · intro h
    by_contra hne
    simp only [hne, if_false] at h
    split at h <;> simp at h
  · intro h
    simp [h]

theorem g_strcmp0_eq_zero_iff (v : Option String) (b : String) :
    g_strcmp0 v (some b) = 0 ↔ v = some b := by
  cases v with
  | none => simp [g_strcmp0]
  | some a =>
    unfold g_strcmp0
    constructor
    · intro h
      by_contra hne
      have hab : a ≠ b := fun e => hne (by rw [e])
      simp only [hab, if_false] at h
      split at h <;> simp at h
    · intro h
      simp [Option.some.inj h]

/-! ## Lemmas on attribute intersection -/

theorem hands_of_select (attr out : GstSDPAttribute)
    (h : intersect_attribute_select attr = some out) : HandsVisitor attr out := by
  intro σ f ud
  simp [intersect_attribute, h]

theorem attribute_is_direction_isSome (attr : GstSDPAttribute) :
    (sdp_utils_attribute_is_direction attr).isSome = true ↔ IsDirectionKey attr.key := by
  simp only [sdp_utils_attribute_is_direction, directions, attribute_is_direction_from,
    beq_iff_eq, g_ascii_strcasecmp_eq_zero_iff, IsDirectionKey, SENDONLY_STR, RECVONLY_STR,
    SENDRECV_STR, INACTIVE_STR]
  by_cases h1 : EqIgnoreAsciiCase attr.key "sendonly"
  · simp [h1]
  by_cases h2 : EqIgnoreAsciiCase attr.key "recvonly"
  · simp [h1, h2]
  by_cases h3 : EqIgnoreAsciiCase attr.key "sendrecv"
  · simp [h1, h2, h3]
  by_cases h4 : EqIgnoreAsciiCase attr.key "inactive"
  · simp [h1, h2, h3, h4]
  simp [h1, h2, h3, h4]

/-- The attribute selected by `intersect_attribute` is the one the rule of the
specification computes; in particular a selection always exists. -/
theorem select_eq_spec (attr : GstSDPAttribute) :
    intersect_attribute_select attr = some (spec_intersect attr) := by
  unfold intersect_attribute_select spec_intersect
  simp only [beq_iff_eq, g_strcmp0_eq_zero_iff, Option.some.injEq]
  by_cases hs : attr.key = "setup"
  · simp only [hs, if_true, sdp_utils_add_setup_attribute, bne_iff_ne, ne_eq,
      g_strcmp0_eq_zero_iff, not_true_eq_false, if_false, beq_iff_eq, gst_sdp_attribute_set,
      spec_setup_answer]
  by_cases hc : attr.key = "connection"
  · simp [hs, hc, gst_sdp_attribute_set]
  simp only [hs, hc, if_false, attribute_is_direction_isSome]
  by_cases hd : IsDirectionKey attr.key
  · simp only [hd, if_true, sdp_utils_set_direction_answer, beq_iff_eq,
      g_ascii_strcasecmp_eq_zero_iff, SENDONLY_STR, RECVONLY_STR, SENDRECV_STR, INACTIVE_STR,
      gst_sdp_attribute_set]
    by_cases h1 : EqIgnoreAsciiCase attr.key "sendonly"
    · simp [h1]
    by_cases h2 : EqIgnoreAsciiCase attr.key "recvonly"
    · simp [h1, h2]
    by_cases h3 : EqIgnoreAsciiCase attr.key "sendrecv"
    · simp [h1, h2, h3]
    by_cases h4 : EqIgnoreAsciiCase attr.key "inactive"
    · simp [h1, h2, h3, h4]
    exact absurd hd (by simp [IsDirectionKey, h1, h2, h3, h4])
  · have hd2 := hd
    simp only [IsDirectionKey, not_or] at hd2
    simp [hd, hd2.1, hd2.2.1, hd2.2.2.1, hd2.2.2.2]

theorem intersect_attribute_eq {σ : Type} (attr : GstSDPAttribute)
    (func : Option (GstSDPAttribute → σ → σ)) (ud : σ) :
    intersect_attribute attr func ud =
      (true, match func with
             | some f => f (spec_intersect attr) ud
             | none => ud) := by
  unfold intersect_attribute
  rw [select_eq_spec]
  cases func <;> rfl

theorem intersect_attributes_loop_eq {σ : Type} (func : Option (GstSDPAttribute → σ → σ))
    (attrs : List GstSDPAttribute) (ud : σ) :
    intersect_attributes_loop func attrs ud =
      (true, match func with
             | some f => (attrs.map spec_intersect).foldl (fun s a => f a s) ud
             | none => ud) := by
  induction attrs generalizing ud with
  | nil => cases func <;> rfl
  | cons a rest ih =>
    unfold intersect_attributes_loop
    rw [intersect_attribute_eq]
    simp only [ih]
    cases func <;> rfl

theorem foldl_record_visitor (l init : List GstSDPAttribute) :
    l.foldl (fun s a => record_visitor a s) init = init ++ l := by
  induction l generalizing init with
  | nil => simp
  | cons a rest ih =>
    rw [List.foldl_cons, ih]
    simp [record_visitor]

theorem not_eqIgnoreAsciiCase_of (key t u : String) (h : EqIgnoreAsciiCase key t)
    (htu : ¬ EqIgnoreAsciiCase t u) : ¬ EqIgnoreAsciiCase key u := by
  unfold EqIgnoreAsciiCase at *
  rw [h]
  exact htu

theorem ne_of_eqIgnoreAsciiCase (key t u : String) (h : EqIgnoreAsciiCase key t)
    (htu : ¬ EqIgnoreAsciiCase u t) : key ≠ u := by
  intro e
  subst e
  exact htu h

/-! ## Attribute intersection: properties -/

/-- C1: for every attribute whose key is exactly "setup", attribute
intersection never fails and hands the visitor an attribute with key "setup"
whose value is "passive" for the input value "active", "active" for "passive",
"active" for "actpass", and "holdconn" for every other value, the empty and
the missing value included. -/
theorem setup_attribute_answer (attr : GstSDPAttribute) (h : attr.key = "setup") :
    NeverFails attr ∧
    (attr.value = some "active" → HandsVisitor attr ⟨"setup", some "passive"⟩) ∧
    (attr.value = some "passive" → HandsVisitor attr ⟨"setup", some "active"⟩) ∧
    (attr.value = some "actpass" → HandsVisitor attr ⟨"setup", some "active"⟩) ∧
    (attr.value ≠ some "active" → attr.value ≠ some "passive" →
      attr.value ≠ some "actpass" → HandsVisitor attr ⟨"setup", some "holdconn"⟩) := by
  refine ⟨?_, ?_, ?_, ?_, ?_⟩
  · intro σ func ud
    rw [intersect_attribute_eq]
  · intro hv
    apply hands_of_select
    rw [select_eq_spec]
    simp [spec_intersect, spec_setup_answer, h, hv]
  · intro hv
    apply hands_of_select
    rw [select_eq_spec]
    simp [spec_intersect, spec_setup_answer, h, hv]
  · intro hv
    apply hands_of_select
    rw [select_eq_spec]
    simp [spec_intersect, spec_setup_answer, h, hv]
  · intro h1 h2 h3
    apply hands_of_select
    rw [select_eq_spec]
    simp [spec_intersect, spec_setup_answer, h, h1, h2, h3]

/-- Instances of C1: the values "actpass", "" and the missing value. -/
theorem setup_attribute_answer_witness :
    (GstSDPAttribute.mk "setup" (some "actpass")).key = "setup" ∧
    intersect_attribute ⟨"setup", some "actpass"⟩ (some record_visitor) []
      = (true, [⟨"setup", some "active"⟩]) ∧
    intersect_attribute ⟨"setup", some ""⟩ (some record_visitor) []
      = (true, [⟨"setup", some "holdconn"⟩]) ∧
    intersect_attribute ⟨"setup", none⟩ (some record_visitor) []
      = (true, [⟨"setup", some "holdconn"⟩]) :=
  ⟨rfl,
   (setup_attribute_answer ⟨"setup", some "actpass"⟩ rfl).2.2.2.1 rfl _ record_visitor [],
   (setup_attribute_answer ⟨"setup", some ""⟩ rfl).2.2.2.2
      (by decide) (by decide) (by decide) _ record_visitor [],
   (setup_attribute_answer ⟨"setup", none⟩ rfl).2.2.2.2
      (by decide) (by decide) (by decide) _ record_visitor []⟩

/-- C2: for every attribute whose key equals "sendonly", "recvonly",
"sendrecv" or "inactive" up to ASCII case, attribute intersection hands the
visitor an attribute whose key is the lower-case token "recvonly", "sendonly",
"sendrecv" or "inactive" respectively, with an empty value. -/
theorem direction_attribute_answer (attr : GstSDPAttribute) :
    (EqIgnoreAsciiCase attr.key "sendonly" → HandsVisitor attr ⟨"recvonly", some ""⟩) ∧
    (EqIgnoreAsciiCase attr.key "recvonly" → HandsVisitor attr ⟨"sendonly", some ""⟩) ∧
    (EqIgnoreAsciiCase attr.key "sendrecv" → HandsVisitor attr ⟨"sendrecv", some ""⟩) ∧
    (EqIgnoreAsciiCase attr.key "inactive" → HandsVisitor attr ⟨"inactive", some ""⟩) := by
  refine ⟨?_, ?_, ?_, ?_⟩
  · intro h
    apply hands_of_select
    rw [select_eq_spec]
    have n1 := ne_of_eqIgnoreAsciiCase _ _ "setup" h (by decide)
    have n2 := ne_of_eqIgnoreAsciiCase _ _ "connection" h (by decide)
    simp [spec_intersect, n1, n2, h]
  · intro h
    apply hands_of_select
    rw [select_eq_spec]
    have n1 := ne_of_eqIgnoreAsciiCase _ _ "setup" h (by decide)
    have n2 := ne_of_eqIgnoreAsciiCase _ _ "connection" h (by decide)
    have n3 := not_eqIgnoreAsciiCase_of _ _ "sendonly" h (by decide)
    simp [spec_intersect, n1, n2, n3, h]
  · intro h
    apply hands_of_select
    rw [select_eq_spec]
    have n1 := ne_of_eqIgnoreAsciiCase _ _ "setup" h (by decide)
    have n2 := ne_of_eqIgnoreAsciiCase _ _ "connection" h (by decide)
    have n3 := not_eqIgnoreAsciiCase_of _ _ "sendonly" h (by decide)
    have n4 := not_eqIgnoreAsciiCase_of _ _ "recvonly" h (by decide)
    simp [spec_intersect, n1, n2, n3, n4, h]
  · intro h
    apply hands_of_select
    rw [select_eq_spec]
    have n1 := ne_of_eqIgnoreAsciiCase _ _ "setup" h (by decide)
    have n2 := ne_of_eqIgnoreAsciiCase _ _ "connection" h (by decide)
    have n3 := not_eqIgnoreAsciiCase_of _ _ "sendonly" h (by decide)
    have n4 := not_eqIgnoreAsciiCase_of _ _ "recvonly" h (by decide)
    have n5 := not_eqIgnoreAsciiCase_of _ _ "sendrecv" h (by decide)
    simp [spec_intersect, n1, n2, n3, n4, n5, h]

/-- Instances of C2: a mixed-case "SendOnly" key with a value and an
upper-case "RECVONLY" key without one. -/
theorem direction_attribute_answer_witness :
    EqIgnoreAsciiCase "SendOnly" "sendonly" ∧
    intersect_attribute ⟨"SendOnly", some "x"⟩ (some record_visitor) []
      = (true, [⟨"recvonly", some ""⟩]) ∧
    EqIgnoreAsciiCase "RECVONLY" "recvonly" ∧
    intersect_attribute ⟨"RECVONLY", none⟩ (some record_visitor) []
      = (true, [⟨"sendonly", some ""⟩]) :=
  ⟨by decide,
   (direction_attribute_answer ⟨"SendOnly", some "x"⟩).1 (by decide) _ record_visitor [],
   by decide,
   (direction_attribute_answer ⟨"RECVONLY", none⟩).2.1 (by decide) _ record_visitor []⟩

/-- C3: for every attribute whose key is exactly "connection", whatever its
value, attribute intersection hands the visitor the attribute
("connection", "new"). -/
theorem connection_attribute_answer (attr : GstSDPAttribute) (h : attr.key = "connection") :
    HandsVisitor attr ⟨"connection", some "new"⟩ := by
  apply hands_of_select
  rw [select_eq_spec]
  simp [spec_intersect, h]

/-- Instance of C3: the value "existing" is replaced by "new". -/
theorem connection_attribute_answer_witness :
    (GstSDPAttribute.mk "connection" (some "existing")).key = "connection" ∧
    intersect_attribute ⟨"connection", some "existing"⟩ (some record_visitor) []
      = (true, [⟨"connection", some "new"⟩]) :=
  ⟨rfl, connection_attribute_answer ⟨"connection", some "existing"⟩ rfl _ record_visitor []⟩

/-- C4: for every attribute whose key is neither exactly "setup", nor exactly
"connection", nor one of the four direction tokens up to ASCII case, attribute
intersection hands the visitor the attribute unchanged. -/
theorem other_attribute_unchanged (attr : GstSDPAttribute) (hs : attr.key ≠ "setup")
    (hc : attr.key ≠ "connection") (hd : ¬ IsDirectionKey attr.key) :
    HandsVisitor attr attr := by
  apply hands_of_select
  rw [select_eq_spec]
  simp only [IsDirectionKey, not_or] at hd
  simp [spec_intersect, hs, hc, hd.1, hd.2.1, hd.2.2.1, hd.2.2.2]

/-- Instances of C4: an rtpmap attribute, and a key "Setup" that differs from
"setup" by case only. -/
theorem other_attribute_unchanged_witness :
    intersect_attribute ⟨"rtpmap", some "96 VP8/90000"⟩ (some record_visitor) []
      = (true, [⟨"rtpmap", some "96 VP8/90000"⟩]) ∧
    intersect_attribute ⟨"Setup", some "active"⟩ (some record_visitor) []
      = (true, [⟨"Setup", some "active"⟩]) :=
  ⟨other_attribute_unchanged ⟨"rtpmap", some "96 VP8/90000"⟩
      (by decide) (by decide) (by decide) _ record_visitor [],
   other_attribute_unchanged ⟨"Setup", some "active"⟩
      (by decide) (by decide) (by decide) _ record_visitor []⟩

/-- C5: `sdp_utils_intersect_session_attributes` and
`sdp_utils_intersect_media_attributes` return `TRUE` and call the visitor on
the intersected attributes in the original order: the state after the call is
the visitor folded, first attribute first, over the input list mapped through
the intersection rule, and the recording visitor sees exactly that mapped
list.  In particular the media attributes [sendrecv, setup:actpass] yield
[sendrecv, setup:active]. -/
theorem intersect_attributes_in_order :
    (∀ (σ : Type) (msg : GstSDPMessage) (f : GstSDPAttribute → σ → σ) (ud : σ),
      sdp_utils_intersect_session_attributes msg (some f) ud
        = (true, (msg.attributes.map spec_intersect).foldl (fun s a => f a s) ud)) ∧
    (∀ (σ : Type) (offer : GstSDPMedia) (f : GstSDPAttribute → σ → σ) (ud : σ),
      sdp_utils_intersect_media_attributes offer (some f) ud
        = (true, (offer.attributes.map spec_intersect).foldl (fun s a => f a s) ud)) ∧
    (∀ msg : GstSDPMessage,
      sdp_utils_intersect_session_attributes msg (some record_visitor) []
        = (true, msg.attributes.map spec_intersect)) ∧
    (∀ offer : GstSDPMedia,
      sdp_utils_intersect_media_attributes offer (some record_visitor) []
        = (true, offer.attributes.map spec_intersect)) ∧
    (∀ (media proto : String) (fmts : List String) (v : Option String),
      sdp_utils_intersect_media_attributes
          ⟨media, proto, fmts, [⟨"sendrecv", v⟩, ⟨"setup", some "actpass"⟩]⟩
          (some record_visitor) []
        = (true, [⟨"sendrecv", some ""⟩, ⟨"setup", some "active"⟩])) := by
  refine ⟨?_, ?_, ?_, ?_, ?_⟩
  · intro σ msg f ud
    simp [sdp_utils_intersect_session_attributes, intersect_attributes_loop_eq]
  · intro σ offer f ud
    simp [sdp_utils_intersect_media_attributes, intersect_attributes_loop_eq]
  · intro msg
    simp [sdp_utils_intersect_session_attributes, intersect_attributes_loop_eq,
      foldl_record_visitor]
  · intro offer
    simp [sdp_utils_intersect_media_attributes, intersect_attributes_loop_eq,
      foldl_record_visitor]
  · intro media proto fmts v
    simp only [sdp_utils_intersect_media_attributes, intersect_attributes_loop_eq,
      foldl_record_visitor, List.map, List.nil_append]
    have e1 : spec_intersect ⟨"sendrecv", v⟩ = ⟨"sendrecv", some ""⟩ := by
      have h : EqIgnoreAsciiCase "sendrecv" "sendrecv" := rfl
      have n1 : ¬ EqIgnoreAsciiCase "sendrecv" "sendonly" := by decide
      have n2 : ¬ EqIgnoreAsciiCase "sendrecv" "recvonly" := by decide
      simp [spec_intersect, h, n1, n2]
    have e2 : spec_intersect ⟨"setup", some "actpass"⟩ = ⟨"setup", some "active"⟩ := by
      decide
    rw [e1, e2]

/-! ## Lemmas on the rtpmap lookup -/

theorem strstr_chars_space (l : List Char) :
    strstr_chars l [' '] =
      if ' ' ∈ l then some (l.dropWhile (fun c => c != ' ')) else none := by
  induction l with
  | nil => simp [strstr_chars]
  | cons c cs ih =>
    unfold strstr_chars
    by_cases hc : c = ' '
    · subst hc
      simp [List.isPrefixOf, List.dropWhile]
    · have hc2 : ¬ (' ' = c) := fun e => hc e.symm
      have hc3 : (c != ' ') = true := by simpa using hc
      simp [List.isPrefixOf, List.dropWhile, hc, hc2, hc3, ih]

theorem eqIgnoreAsciiCase_comm (a b : String) :
    EqIgnoreAsciiCase a b ↔ EqIgnoreAsciiCase b a := by
  unfold EqIgnoreAsciiCase
  exact eq_comm

/-- One step of the explicit search: the value the body of the loop leaves in
`rtpmap` for a single attribute. -/
theorem rtpmap_search_cons_match (format : String) (a : GstSDPAttribute)
    (rest : List GstSDPAttribute) (v : String) (h : rtpmap_matches format a)
    (hv : a.value = some v) :
    rtpmap_search format (a :: rest) = some (after_first_space v) := by
  obtain ⟨hk, w, hw, hp, hs⟩ := h
  rw [hv] at hw
  obtain rfl := Option.some.inj hw
  have hk2 : g_ascii_strcasecmp RTPMAP a.key = 0 := by
    rw [g_ascii_strcasecmp_eq_zero_iff, eqIgnoreAsciiCase_comm]
    exact hk
  have hp2 : format.data.isPrefixOf v.data = true := by
    simpa using hp
  simp [rtpmap_search, hk2, hv, g_str_has_prefix, hp2, g_strstr_len, strstr_chars_space, hs,
    after_first_space]

theorem rtpmap_search_cons_no_match (format : String) (a : GstSDPAttribute)
    (rest : List GstSDPAttribute) (h : ¬ rtpmap_matches format a) :
    rtpmap_search format (a :: rest) = rtpmap_search format rest := by
  by_cases hk : g_ascii_strcasecmp RTPMAP a.key = 0
  · have hk2 : EqIgnoreAsciiCase a.key "rtpmap" := by
      rw [g_ascii_strcasecmp_eq_zero_iff, eqIgnoreAsciiCase_comm] at hk
      exact hk
    cases hv : a.value with
    | none => simp [rtpmap_search, hk, hv, g_str_has_prefix]
    | some v =>
      by_cases hp : format.data.isPrefixOf v.data = true
      · have hp2 : format.data <+: v.data := by simpa using hp
        have hs : ' ' ∉ v.data := fun hs => h ⟨hk2, v, hv, hp2, hs⟩
        simp [rtpmap_search, hk, hv, g_str_has_prefix, hp, g_strstr_len, strstr_chars_space, hs]
      · simp [rtpmap_search, hk, hv, g_str_has_prefix, hp]
  · simp [rtpmap_search, hk]

theorem rtpmap_search_first (format : String) (attrs : List GstSDPAttribute)
    (a : GstSDPAttribute) (v : String) (h : FirstWith (rtpmap_matches format) attrs a)
    (hv : a.value = some v) :
    rtpmap_search format attrs = some (after_first_space v) := by
  obtain ⟨pre, post, rfl, hpre, ha⟩ := h
  induction pre with
  | nil => exact rtpmap_search_cons_match format a post v ha hv
  | cons b pre ih =>
    rw [List.cons_append, rtpmap_search_cons_no_match format b _ (hpre b (by simp))]
    exact ih (fun c hc => hpre c (by simp [hc]))

theorem rtpmap_search_none (format : String) (attrs : List GstSDPAttribute)
    (h : ∀ a ∈ attrs, ¬ rtpmap_matches format a) :
    rtpmap_search format attrs = none := by
  induction attrs with
  | nil => rfl
  | cons b rest ih =>
    rw [rtpmap_search_cons_no_match format b _ (h b (by simp))]
    exact ih (fun c hc => h c (by simp [hc]))

theorem isdigit_not_space_or_sign (c : Char) (h : g_ascii_isdigit c = true) :
    isspace c = false ∧ c ≠ '-' ∧ c ≠ '+' := by
  refine ⟨?_, ?_, ?_⟩
  · simp only [isspace, Bool.or_eq_false_iff, decide_eq_false_iff_not]
    refine ⟨⟨⟨⟨⟨?_, ?_⟩, ?_⟩, ?_⟩, ?_⟩, ?_⟩ <;>
    · rintro rfl
      revert h
      decide
  · rintro rfl
    revert h
    decide
  · rintro rfl
    revert h
    decide

theorem atoi_of_digits (s : String) (hd : ∀ c ∈ s.data, g_ascii_isdigit c = true) :
    atoi s = wrap32 (clamp64 (decimalValue s.data)) := by
  unfold atoi
  cases hs : s.data with
  | nil => simp [List.dropWhile, List.takeWhile]
  | cons c cs =>
    have hc : g_ascii_isdigit c = true := hd c (by simp [hs])
    obtain ⟨h1, h2, h3⟩ := isdigit_not_space_or_sign c hc
    have hall : ∀ x ∈ c :: cs, g_ascii_isdigit x = true := by
      intro x hx
      exact hd x (by rw [hs]; exact hx)
    have htw : List.takeWhile g_ascii_isdigit (c :: cs) = c :: cs :=
      List.takeWhile_eq_self_iff.mpr hall
    simp only [List.dropWhile, h1, h2, h3, if_false, htw]

theorem wrap32_small (n : Nat) (h : n < 2 ^ 31) : wrap32 (n : Int) = n := by
  unfold wrap32
  have h2 : ((n : Int)) % 2 ^ 32 = n := by
    apply Int.emod_eq_of_lt
    · exact Int.ofNat_nonneg n
    · have : (n : Int) < 2 ^ 31 := by exact_mod_cast h
      omega
  simp only [h2]
  have h3 : (n : Int) < 2 ^ 31 := by exact_mod_cast h
  rw [if_pos h3]

theorem wrap32_clamp64_small (n : Nat) (h : n < 2 ^ 31) : wrap32 (clamp64 (n : Int)) = n := by
  have hc : clamp64 (n : Int) = n := by
    unfold clamp64
    have h3 : (n : Int) < 2 ^ 31 := by exact_mod_cast h
    have h4 : (0 : Int) ≤ n := Int.ofNat_nonneg n
    rw [if_neg (by omega), if_neg (by omega)]
  rw [hc]
  exact wrap32_small n h

/-! ## The rtpmap lookup: properties -/

/-- C6 as stated does not hold: with an attribute RTPMAP (upper case) before
an attribute rtpmap, both for format "0", the first attribute whose key is
"rtpmap" carries "Y/2" but the lookup returns "X/1", the encoding of the
upper-case attribute. -/
theorem rtpmap_exact_key_counterexample :
    ¬ rtpmap_rule_exact_key upper_case_rtpmap_media "0" ∧
    sdp_utils_sdp_media_get_rtpmap upper_case_rtpmap_media "0" = Outcome.ok (some "X/1") := by
  refine ⟨?_, by decide⟩
  intro h
  have hfirst : FirstWith (rtpmap_matches_exact_key "0") upper_case_rtpmap_media.attributes
      ⟨"rtpmap", some "0 Y/2"⟩ := by
    refine ⟨[⟨"RTPMAP", some "0 X/1"⟩], [], rfl, ?_, ⟨rfl, "0 Y/2", rfl, by decide, by decide⟩⟩
    intro b hb hm
    rw [List.mem_singleton] at hb
    subst hb
    exact absurd hm.1 (by decide)
  have h2 := h _ "0 Y/2" hfirst rfl
  revert h2
  decide

/-- C6, amended: for every media block and format id, when some attribute
whose key equals "rtpmap" up to ASCII case has a value that starts with the
format id and contains a space, `sdp_utils_sdp_media_get_rtpmap` returns the
part of the value after the first space of the first such attribute, whatever
the static table holds for the format id. -/
theorem rtpmap_explicit_attribute_first (media : GstSDPMedia) (format : String)
    (a : GstSDPAttribute) (v : String)
    (h : FirstWith (rtpmap_matches format) media.attributes a) (hv : a.value = some v) :
    sdp_utils_sdp_media_get_rtpmap media format = Outcome.ok (some (after_first_space v)) := by
  unfold sdp_utils_sdp_media_get_rtpmap
  rw [rtpmap_search_first format media.attributes a v h hv]

/-- Instance of C6: an explicit rtpmap attribute for format "0" takes
precedence over the static entry "PCMU/8000/1". -/
theorem rtpmap_explicit_attribute_first_witness :
    FirstWith (rtpmap_matches "0")
      [⟨"mid", some "a0"⟩, ⟨"rtpmap", some "0 opus/48000/2"⟩, ⟨"rtpmap", some "0 PCMU/8000"⟩]
      ⟨"rtpmap", some "0 opus/48000/2"⟩ ∧
    sdp_utils_sdp_media_get_rtpmap ⟨"audio", "RTP/AVP", ["0"],
      [⟨"mid", some "a0"⟩, ⟨"rtpmap", some "0 opus/48000/2"⟩, ⟨"rtpmap", some "0 PCMU/8000"⟩]⟩ "0"
      = Outcome.ok (some "opus/48000/2") ∧
    sdp_utils_sdp_media_get_rtpmap ⟨"audio", "RTP/AVP", ["0"], []⟩ "0"
      = Outcome.ok (some "PCMU/8000/1") :=
  have hf : FirstWith (rtpmap_matches "0")
      [⟨"mid", some "a0"⟩, ⟨"rtpmap", some "0 opus/48000/2"⟩, ⟨"rtpmap", some "0 PCMU/8000"⟩]
      ⟨"rtpmap", some "0 opus/48000/2"⟩ :=
    ⟨[⟨"mid", some "a0"⟩], [⟨"rtpmap", some "0 PCMU/8000"⟩], rfl,
      fun b hb hm => by
        rw [List.mem_singleton] at hb
        subst hb
        exact absurd hm.1 (by decide),
      ⟨by decide, "0 opus/48000/2", rfl, by decide, by decide⟩⟩
  ⟨hf,
   rtpmap_explicit_attribute_first ⟨"audio", "RTP/AVP", ["0"], _⟩ "0" _ "0 opus/48000/2" hf rfl,
   by decide⟩

/-- C7: for every media block in which no rtpmap attribute matches the format
id (no attribute with key "rtpmap" up to ASCII case has a value that starts
with the format id and contains a space), and every format id made of decimal
digits with value n, 0 <= n <= 34, `sdp_utils_sdp_media_get_rtpmap` returns
entry n of the static table (leading zeros do not count, and the empty format
id reads as 0, as `atoi` reads it).  The table has 35 slots; slots 1, 2, 19-24, 27,
29 and 30 are none, every other slot holds a string; slot 0 is "PCMU/8000/1",
slot 8 "PCMA/8000/1", slot 34 "H263/90000". -/
theorem rtpmap_static_table_entry :
    (∀ (media : GstSDPMedia) (format : String) (n : Nat),
      (∀ a ∈ media.attributes, ¬ rtpmap_matches format a) →
      (∀ c ∈ format.data, g_ascii_isdigit c = true) →
      decimalValue format.data = n → n ≤ 34 →
      sdp_utils_sdp_media_get_rtpmap media format = Outcome.ok (rtpmaps.getD n none)) ∧
    rtpmaps.length = 35 ∧
    (∀ i < 35, rtpmaps.getD i none = none ↔
      i ∈ [1, 2, 19, 20, 21, 22, 23, 24, 27, 29, 30]) ∧
    rtpmaps.getD 0 none = some "PCMU/8000/1" ∧
    rtpmaps.getD 8 none = some "PCMA/8000/1" ∧
    rtpmaps.getD 34 none = some "H263/90000" := by
  refine ⟨?_, by decide, by decide, by decide, by decide, by decide⟩
  intro media format n hno hd hn hle
  unfold sdp_utils_sdp_media_get_rtpmap
  rw [rtpmap_search_none format media.attributes hno]
  have hall : format.data.all g_ascii_isdigit = true := by
    rw [List.all_eq_true]
    exact hd
  have hat : atoi format = (n : Int) := by
    rw [atoi_of_digits format hd, hn]
    exact wrap32_clamp64_small n (lt_of_le_of_lt hle (by norm_num))
  simp only [hall, if_true, hat]
  have h1 : ¬ ((n : Int) > 34) := by omega
  have h2 : (0 : Int) ≤ n ∧ (n : Int) < 35 := by omega
  simp only [h1, if_false, rtpmaps_read, h2, and_self, if_true, Int.toNat_ofNat]

/-- Instances of C7: format "8" and the zero-padded "034" with no rtpmap
attribute, format "0" next to an rtpmap attribute for another payload type,
and the reserved slot 19. -/
theorem rtpmap_static_table_entry_witness :
    sdp_utils_sdp_media_get_rtpmap ⟨"audio", "RTP/AVP", ["8"], []⟩ "8"
      = Outcome.ok (some "PCMA/8000/1") ∧
    sdp_utils_sdp_media_get_rtpmap ⟨"video", "RTP/AVP", ["034"], []⟩ "034"
      = Outcome.ok (some "H263/90000") ∧
    sdp_utils_sdp_media_get_rtpmap ⟨"audio", "RTP/AVP", ["0", "96"],
      [⟨"rtpmap", some "96 opus/48000/2"⟩]⟩ "0" = Outcome.ok (some "PCMU/8000/1") ∧
    sdp_utils_sdp_media_get_rtpmap ⟨"audio", "RTP/AVP", ["19"], []⟩ "19"
      = Outcome.ok none :=
  ⟨rtpmap_static_table_entry.1 ⟨"audio", "RTP/AVP", ["8"], []⟩ "8" 8
      (by simp) (by decide) (by decide) (by decide),
   rtpmap_static_table_entry.1 ⟨"video", "RTP/AVP", ["034"], []⟩ "034" 34
      (by simp) (by decide) (by decide) (by decide),
   rtpmap_static_table_entry.1 ⟨"audio", "RTP/AVP", ["0", "96"],
      [⟨"rtpmap", some "96 opus/48000/2"⟩]⟩ "0" 0
      (fun a ha hm => by
        rw [List.mem_singleton] at ha
        subst ha
        obtain ⟨_, w, hw, hp, _⟩ := hm
        obtain rfl := Option.some.inj hw
        revert hp
        decide)
      (by decide) (by decide) (by decide),
   rtpmap_static_table_entry.1 ⟨"audio", "RTP/AVP", ["19"], []⟩ "19" 19
      (by simp) (by decide) (by decide) (by decide)⟩

/-- C8, the code at the failing input: with no rtpmap attribute, the all-digit
format id "4294967296" has decimal value 2^32, which is 35 or more, yet
`sdp_utils_sdp_media_get_rtpmap` returns the static entry "PCMU/8000/1"
instead of none, because `atoi` wraps the value to 0 before the test
`pt > 34`. -/
theorem rtpmap_wrapped_format_returns_pcmu :
    "4294967296".data.all g_ascii_isdigit = true ∧
    35 ≤ decimalValue "4294967296".data ∧
    atoi "4294967296" = 0 ∧
    sdp_utils_sdp_media_get_rtpmap ⟨"audio", "RTP/AVP", ["4294967296"], []⟩ "4294967296"
      = Outcome.ok (some "PCMU/8000/1") := by
  decide

/-- What does hold of C8, first part: with no matching rtpmap attribute, a
format id that contains a character other than a decimal digit yields none. -/
theorem rtpmap_none_of_non_digit (media : GstSDPMedia) (format : String)
    (hno : ∀ a ∈ media.attributes, ¬ rtpmap_matches format a)
    (hc : ∃ c ∈ format.data, g_ascii_isdigit c = false) :
    sdp_utils_sdp_media_get_rtpmap media format = Outcome.ok none := by
  unfold sdp_utils_sdp_media_get_rtpmap
  rw [rtpmap_search_none format media.attributes hno]
  have hall : ¬ (format.data.all g_ascii_isdigit = true) := by
    rw [List.all_eq_true]
    obtain ⟨c, hmem, hnd⟩ := hc
    intro h
    rw [h c hmem] at hnd
    exact Bool.noConfusion hnd
  rw [if_neg hall]

/-- What does hold of C8, second part: with no matching rtpmap attribute, an
all-digit format id whose value is at least 35 and fits a 32-bit signed `int`
yields none. -/
theorem rtpmap_none_of_value_in_int_range (media : GstSDPMedia) (format : String)
    (hno : ∀ a ∈ media.attributes, ¬ rtpmap_matches format a)
    (hd : ∀ c ∈ format.data, g_ascii_isdigit c = true)
    (h35 : 35 ≤ decimalValue format.data) (hmax : decimalValue format.data < 2 ^ 31) :
    sdp_utils_sdp_media_get_rtpmap media format = Outcome.ok none := by
  unfold sdp_utils_sdp_media_get_rtpmap
  rw [rtpmap_search_none format media.attributes hno]
  have hall : format.data.all g_ascii_isdigit = true := by
    rw [List.all_eq_true]
    exact hd
  have hat : atoi format = (decimalValue format.data : Int) := by
    rw [atoi_of_digits format hd]
    exact wrap32_clamp64_small _ hmax
  have h1 : (decimalValue format.data : Int) > 34 := by omega
  simp only [hall, if_true, hat, h1]

/-! ## Setup role and media direction -/

theorem attribute_val_n_first (key : String) (attrs : List GstSDPAttribute)
    (a : GstSDPAttribute) (h : FirstWith (fun b => b.key = key) attrs a) :
    attribute_val_n key attrs 0 = a.value := by
  obtain ⟨pre, post, rfl, hpre, ha⟩ := h
  induction pre with
  | nil => simp [attribute_val_n, ha]
  | cons b pre ih =>
    have hb : ¬ b.key = key := hpre b (by simp)
    rw [List.cons_append]
    unfold attribute_val_n
    rw [if_neg hb]
    exact ih (fun c hc => hpre c (by simp [hc]))

theorem attribute_val_n_none (key : String) (attrs : List GstSDPAttribute) (nth : Nat)
    (h : ∀ a ∈ attrs, a.key ≠ key) : attribute_val_n key attrs nth = none := by
  induction attrs with
  | nil => rfl
  | cons b rest ih =>
    have hb : ¬ b.key = key := h b (by simp)
    unfold attribute_val_n
    rw [if_neg hb]
    exact ih (fun c hc => h c (by simp [hc]))

theorem media_is_active_of_value (media : GstSDPMedia) (offerer : Bool) :
    sdp_utils_media_is_active media offerer =
      if gst_sdp_media_get_attribute_val_n media "setup" 0 = some "active" then !offerer
      else if gst_sdp_media_get_attribute_val_n media "setup" 0 = some "passive" then offerer
      else !offerer := by
  unfold sdp_utils_media_is_active
  cases hv : gst_sdp_media_get_attribute_val_n media "setup" 0 with
  | none => simp
  | some v =>
    simp only [beq_iff_eq, g_strcmp0_eq_zero_iff]
    cases offerer <;> simp

theorem attribute_is_direction_eq (attr : GstSDPAttribute) :
    sdp_utils_attribute_is_direction attr =
      if EqIgnoreAsciiCase attr.key "sendonly" then some 0
      else if EqIgnoreAsciiCase attr.key "recvonly" then some 1
      else if EqIgnoreAsciiCase attr.key "sendrecv" then some 2
      else if EqIgnoreAsciiCase attr.key "inactive" then some 3
      else none := by
  simp only [sdp_utils_attribute_is_direction, directions, attribute_is_direction_from,
    beq_iff_eq, g_ascii_strcasecmp_eq_zero_iff, SENDONLY_STR, RECVONLY_STR, SENDRECV_STR,
    INACTIVE_STR]

theorem config_get_direction_loop_cons (dir : GstSDPDirection) (a : GstSDPAttribute)
    (rest : List GstSDPAttribute) :
    config_get_direction_loop dir (a :: rest) =
      match sdp_utils_attribute_is_direction a with
      | some i => GstSDPDirection.ofIndex i
      | none => config_get_direction_loop dir rest := rfl

theorem config_get_direction_loop_skip (dir : GstSDPDirection) (pre rest : List GstSDPAttribute)
    (h : ∀ b ∈ pre, ¬ IsDirectionKey b.key) :
    config_get_direction_loop dir (pre ++ rest) = config_get_direction_loop dir rest := by
  induction pre with
  | nil => rfl
  | cons b pre ih =>
    have hb := h b (by simp)
    simp only [IsDirectionKey, not_or] at hb
    rw [List.cons_append, config_get_direction_loop_cons, attribute_is_direction_eq]
    simp only [hb.1, hb.2.1, hb.2.2.1, hb.2.2.2, if_false]
    exact ih (fun c hc => h c (by simp [hc]))

/-- C9: `sdp_utils_media_is_active` decides from the value of the first
attribute whose key is "setup"; the result `true` means active and `false`
passive.  With no setup attribute the offerer is passive and the answerer
active; with "active" the offerer side is passive and the answerer side
active; with "passive" the offerer side is active and the answerer side
passive; with any other value, a missing one included, the result is that of
a media block with no setup attribute. -/
theorem media_is_active_by_first_setup (media : GstSDPMedia) :
    ((∀ a ∈ media.attributes, a.key ≠ "setup") →
      sdp_utils_media_is_active media true = false ∧
      sdp_utils_media_is_active media false = true) ∧
    (∀ a, FirstWith (fun b => b.key = "setup") media.attributes a →
      (a.value = some "active" →
        sdp_utils_media_is_active media true = false ∧
        sdp_utils_media_is_active media false = true) ∧
      (a.value = some "passive" →
        sdp_utils_media_is_active media true = true ∧
        sdp_utils_media_is_active media false = false) ∧
      (a.value ≠ some "active" → a.value ≠ some "passive" →
        sdp_utils_media_is_active media true = false ∧
        sdp_utils_media_is_active media false = true)) := by
  refine ⟨?_, ?_⟩
  · intro h
    have hv : gst_sdp_media_get_attribute_val_n media "setup" 0 = none :=
      attribute_val_n_none "setup" media.attributes 0 h
    simp [media_is_active_of_value, hv]
  · intro a hf
    have hv : gst_sdp_media_get_attribute_val_n media "setup" 0 = a.value :=
      attribute_val_n_first "setup" media.attributes a hf
    refine ⟨?_, ?_, ?_⟩
    · intro ha
      simp [media_is_active_of_value, hv, ha]
    · intro ha
      simp [media_is_active_of_value, hv, ha]
    · intro h1 h2
      simp [media_is_active_of_value, hv, h1, h2]

/-- Instances of C9: a media block without setup attribute, and one whose
first setup attribute is "passive" and whose second is "active". -/
theorem media_is_active_by_first_setup_witness :
    (sdp_utils_media_is_active ⟨"audio", "RTP/AVP", ["0"], [⟨"mid", some "a0"⟩]⟩ true = false ∧
     sdp_utils_media_is_active ⟨"audio", "RTP/AVP", ["0"], [⟨"mid", some "a0"⟩]⟩ false = true) ∧
    (sdp_utils_media_is_active ⟨"audio", "RTP/AVP", ["0"],
        [⟨"mid", some "a0"⟩, ⟨"setup", some "passive"⟩, ⟨"setup", some "active"⟩]⟩ true = true ∧
     sdp_utils_media_is_active ⟨"audio", "RTP/AVP", ["0"],
        [⟨"mid", some "a0"⟩, ⟨"setup", some "passive"⟩, ⟨"setup", some "active"⟩]⟩ false
        = false) :=
  ⟨(media_is_active_by_first_setup ⟨"audio", "RTP/AVP", ["0"], [⟨"mid", some "a0"⟩]⟩).1
      (fun a ha => by
        rw [List.mem_singleton] at ha
        subst ha
        decide),
   ((media_is_active_by_first_setup ⟨"audio", "RTP/AVP", ["0"],
        [⟨"mid", some "a0"⟩, ⟨"setup", some "passive"⟩, ⟨"setup", some "active"⟩]⟩).2
      ⟨"setup", some "passive"⟩
      ⟨[⟨"mid", some "a0"⟩], [⟨"setup", some "active"⟩], rfl,
        fun b hb => by
          rw [List.mem_singleton] at hb
          subst hb
          decide,
        rfl⟩).2.1 rfl⟩

/-- C10: `sdp_utils_media_config_get_direction` returns the direction named
by the first attribute, in stored order, whose key equals "sendonly",
"recvonly", "sendrecv" or "inactive" up to ASCII case, whatever follows it,
and returns SENDRECV when no attribute key matches. -/
theorem media_direction_first_match (media : GstSDPMedia) :
    (∀ a, FirstWith (fun b => IsDirectionKey b.key) media.attributes a →
      (EqIgnoreAsciiCase a.key "sendonly" →
        sdp_utils_media_config_get_direction media = GstSDPDirection.SENDONLY) ∧
      (EqIgnoreAsciiCase a.key "recvonly" →
        sdp_utils_media_config_get_direction media = GstSDPDirection.RECVONLY) ∧
      (EqIgnoreAsciiCase a.key "sendrecv" →
        sdp_utils_media_config_get_direction media = GstSDPDirection.SENDRECV) ∧
      (EqIgnoreAsciiCase a.key "inactive" →
        sdp_utils_media_config_get_direction media = GstSDPDirection.INACTIVE)) ∧
    ((∀ a ∈ media.attributes, ¬ IsDirectionKey a.key) →
      sdp_utils_media_config_get_direction media = GstSDPDirection.SENDRECV) := by
  refine ⟨?_, ?_⟩
  · rintro a ⟨pre, post, hl, hpre, -⟩
    have hloop : sdp_utils_media_config_get_direction media =
        match sdp_utils_attribute_is_direction a with
        | some i => GstSDPDirection.ofIndex i
        | none => config_get_direction_loop GstSDPDirection.SENDRECV post := by
      unfold sdp_utils_media_config_get_direction
      rw [hl, config_get_direction_loop_skip _ pre _ hpre, config_get_direction_loop_cons]
    rw [hloop, attribute_is_direction_eq]
    refine ⟨?_, ?_, ?_, ?_⟩
    · intro h
      simp [h, GstSDPDirection.ofIndex]
    · intro h
      have n1 := not_eqIgnoreAsciiCase_of _ _ "sendonly" h (by decide)
      simp [h, n1, GstSDPDirection.ofIndex]
    · intro h
      have n1 := not_eqIgnoreAsciiCase_of _ _ "sendonly" h (by decide)
      have n2 := not_eqIgnoreAsciiCase_of _ _ "recvonly" h (by decide)
      simp [h, n1, n2, GstSDPDirection.ofIndex]
    · intro h
      have n1 := not_eqIgnoreAsciiCase_of _ _ "sendonly" h (by decide)
      have n2 := not_eqIgnoreAsciiCase_of _ _ "recvonly" h (by decide)
      have n3 := not_eqIgnoreAsciiCase_of _ _ "sendrecv" h (by decide)
      simp [h, n1, n2, n3, GstSDPDirection.ofIndex]
  · intro h
    unfold sdp_utils_media_config_get_direction
    have e := config_get_direction_loop_skip GstSDPDirection.SENDRECV media.attributes [] h
    rw [List.append_nil] at e
    rw [e]
    rfl

/-- Instances of C10: a mixed-case "RecvOnly" attribute followed by a
"sendonly" one, and a media block without direction attribute. -/
theorem media_direction_first_match_witness :
    sdp_utils_media_config_get_direction ⟨"audio", "RTP/AVP", ["0"],
        [⟨"mid", some "a0"⟩, ⟨"RecvOnly", some ""⟩, ⟨"sendonly", some ""⟩]⟩
      = GstSDPDirection.RECVONLY ∧
    sdp_utils_media_config_get_direction ⟨"audio", "RTP/AVP", ["0"], [⟨"mid", some "a0"⟩]⟩
      = GstSDPDirection.SENDRECV :=
  ⟨((media_direction_first_match ⟨"audio", "RTP/AVP", ["0"],
        [⟨"mid", some "a0"⟩, ⟨"RecvOnly", some ""⟩, ⟨"sendonly", some ""⟩]⟩).1
      ⟨"RecvOnly", some ""⟩
      ⟨[⟨"mid", some "a0"⟩], [⟨"sendonly", some ""⟩], rfl,
        fun b hb => by
          rw [List.mem_singleton] at hb
          subst hb
          decide,
        by decide⟩).2.1 (by decide),
   (media_direction_first_match ⟨"audio", "RTP/AVP", ["0"], [⟨"mid", some "a0"⟩]⟩).2
      (fun a ha => by
        rw [List.mem_singleton] at ha
        subst ha
        decide)⟩

/-! ## The ssrc of a media block -/

theorem g_strcmp0_eq_zero_iff_eq (a b : Option String) : g_strcmp0 a b = 0 ↔ a = b := by
  cases b with
  | some s => exact g_strcmp0_eq_zero_iff a s
  | none =>
    cases a with
    | none => simp [g_strcmp0]
    | some t => simp [g_strcmp0]

theorem split_chars_head (delim : Char) (l : List Char) :
    (split_chars delim l).head? = some (l.takeWhile (fun c => c != delim)) := by
  induction l with
  | nil => rfl
  | cons c cs ih =>
    by_cases hc : c = delim
    · simp [split_chars, List.takeWhile, hc]
    · have hc2 : (c != delim) = true := by simpa using hc
      cases hs : split_chars delim cs with
      | nil => simp [hs] at ih
      | cons piece pieces =>
        rw [hs] at ih
        simp only [List.head?_cons, Option.some.injEq] at ih
        simp [split_chars, List.takeWhile, hc, hc2, hs, ih]

theorem g_strsplit_head (v : String) : (g_strsplit v ' ').head? = leading_token v := by
  unfold g_strsplit leading_token
  by_cases hv : v.data = []
  · simp [hv]
  · simp only [hv, if_false, List.head?_map, split_chars_head, Option.map_some']

theorem attribute_val_n_eq (key : String) (attrs : List GstSDPAttribute) (n : Nat) :
    attribute_val_n key attrs n = ((same_name_values key attrs)[n]?).join := by
  induction attrs generalizing n with
  | nil => simp [attribute_val_n, same_name_values]
  | cons a rest ih =>
    by_cases ha : a.key = key
    · cases n with
      | zero => simp [attribute_val_n, same_name_values, ha]
      | succ m =>
        have := ih m
        simp only [same_name_values] at this
        simp [attribute_val_n, same_name_values, ha, this]
    · have := ih n
      simp only [same_name_values] at this
      simp [attribute_val_n, same_name_values, ha, this]

theorem get_attr_map_value_loop_eq (media : GstSDPMedia) (name : String) (fmt : Option String)
    (fuel i : Nat)
    (h : ((same_name_values name media.attributes).drop i).length < fuel) :
    get_attr_map_value_loop media name fmt fuel i
      = some (attr_map_scan fmt ((same_name_values name media.attributes).drop i)) := by
  induction fuel generalizing i with
  | zero => exact absurd h (Nat.not_lt_zero _)
  | succ fuel ih =>
    unfold get_attr_map_value_loop
    have hval : gst_sdp_media_get_attribute_val_n media name i
        = (((same_name_values name media.attributes).drop i)[0]?).join := by
      unfold gst_sdp_media_get_attribute_val_n
      rw [attribute_val_n_eq, List.getElem?_drop]
      rfl
    have htail : (same_name_values name media.attributes).drop (i + 1)
        = ((same_name_values name media.attributes).drop i).tail := by
      rw [List.tail_drop]
    rw [hval]
    cases hd : (same_name_values name media.attributes).drop i with
    | nil => simp [attr_map_scan]
    | cons x xs =>
      rw [hd] at h htail
      cases x with
      | none => simp [attr_map_scan]
      | some v =>
        have hlen : ((same_name_values name media.attributes).drop (i + 1)).length < fuel := by
          rw [htail]
          simp only [List.tail_cons]
          simp only [List.length_cons] at h
          omega
        have hj : ((some v :: xs)[0]?).join = some v := by
          rw [List.getElem?_cons_zero]
          rfl
        simp only [hj, beq_iff_eq, g_strcmp0_eq_zero_iff_eq, g_strsplit_head, attr_map_scan]
        by_cases ht : leading_token v = fmt
        · simp [ht]
        · have ht2 : ¬ fmt = leading_token v := fun e => ht e.symm
          simp only [ht, ht2, if_false]
          rw [ih (i + 1) hlen, htail]
          rfl

/-- The loop of `sdp_utils_get_attr_map_value` returns within the iterations
it is given: the function always yields a result, the scan of the values of
the attributes named `name`. -/
theorem get_attr_map_value_returns (media : GstSDPMedia) (name : String) (fmt : Option String) :
    sdp_utils_get_attr_map_value media name fmt
      = some (attr_map_scan fmt (same_name_values name media.attributes)) := by
  unfold sdp_utils_get_attr_map_value
  have hlen : ((same_name_values name media.attributes).drop 0).length
      < media.attributes.length + 1 := by
    simp only [List.drop_zero, same_name_values, List.length_map]
    exact Nat.lt_succ_of_le (List.length_filter_le _ _)
  rw [get_attr_map_value_loop_eq media name fmt _ 0 hlen, List.drop_zero]

theorem mem_same_name_values (name : String) (attrs : List GstSDPAttribute)
    (x : Option String) (hx : x ∈ same_name_values name attrs) :
    ∃ b ∈ attrs, b.key = name ∧ b.value = x := by
  simp only [same_name_values, List.mem_map, List.mem_filter, decide_eq_true_eq] at hx
  obtain ⟨b, ⟨hb, hk⟩, hv⟩ := hx
  exact ⟨b, hb, hk, hv⟩

theorem attr_map_scan_first (fmt : Option String) (l1 l2 : List (Option String)) (v : String)
    (h1 : ∀ x ∈ l1, ∃ w, x = some w ∧ leading_token w ≠ fmt) (hv : leading_token v = fmt) :
    attr_map_scan fmt (l1 ++ some v :: l2) = some v := by
  induction l1 with
  | nil => simp [attr_map_scan, hv]
  | cons x xs ih =>
    obtain ⟨w, rfl, hw⟩ := h1 x (by simp)
    simp only [List.cons_append, attr_map_scan, hw, if_false]
    exact ih (fun y hy => h1 y (by simp [hy]))

theorem attr_map_scan_none (fmt : Option String) (l : List (Option String))
    (h : ∀ w, some w ∈ l → leading_token w ≠ fmt) : attr_map_scan fmt l = none := by
  induction l with
  | nil => rfl
  | cons x xs ih =>
    cases x with
    | none => rfl
    | some w =>
      have hw := h w (by simp)
      simp only [attr_map_scan, hw, if_false]
      exact ih (fun y hy => h y (by simp [hy]))

/-- C12 as stated does not hold: the leading whitespace-delimited token of the
value "96\tprofile-level-id=42e01f" (a tab after the format id) is "96", yet
`sdp_utils_get_attr_map_value` returns none for the name "fmtp" and the
format id "96", because the value is split at spaces only. -/
theorem get_attr_map_value_tab_counterexample :
    "96\tprofile-level-id=42e01f".data.takeWhile (fun c => !isspace c) = "96".data ∧
    sdp_utils_get_attr_map_value
        ⟨"video", "RTP/AVP", ["96"], [⟨"fmtp", some "96\tprofile-level-id=42e01f"⟩]⟩
        "fmtp" (some "96")
      = some none := by
  decide

/-- The scan ends at an attribute without value: the media block has an
attribute fmtp whose leading token is "96", yet the function returns none for
the name "fmtp" and the format id "96", because an earlier attribute fmtp has
no value and the loop takes the `NULL` of that value for the end of the
attributes. -/
theorem get_attr_map_value_stops_at_missing_value :
    GstSDPAttribute.mk "fmtp" (some "96 profile-level-id=42e01f")
      ∈ valueless_fmtp_media.attributes ∧
    leading_token "96 profile-level-id=42e01f" = some "96" ∧
    sdp_utils_get_attr_map_value valueless_fmtp_media "fmtp" (some "96") = some none := by
  decide

/-- The value of the first attribute named `name` whose leading token is the
format id is returned, when the attributes named `name` that precede it all
carry a value. -/
theorem get_attr_map_value_first (media : GstSDPMedia) (name fmt v : String)
    (pre post : List GstSDPAttribute) (a : GstSDPAttribute)
    (hl : media.attributes = pre ++ a :: post) (hk : a.key = name) (hv : a.value = some v)
    (ht : leading_token v = some fmt)
    (hpre : ∀ b ∈ pre, b.key = name → ∃ w, b.value = some w ∧ leading_token w ≠ some fmt) :
    sdp_utils_get_attr_map_value media name (some fmt) = some (some v) := by
  rw [get_attr_map_value_returns, hl]
  have hsplit : same_name_values name (pre ++ a :: post)
      = same_name_values name pre ++ some v :: same_name_values name post := by
    simp [same_name_values, List.filter_append, List.filter_cons, hk, hv]
  rw [hsplit, attr_map_scan_first (some fmt) _ _ v _ ht]
  intro x hx
  obtain ⟨b, hb, hbk, hbv⟩ := mem_same_name_values name pre x hx
  obtain ⟨w, hw, hne⟩ := hpre b hb hbk
  exact ⟨w, by rw [← hbv, hw], hne⟩

/-- C12, amended: `sdp_utils_get_attr_map_value` always returns (the outer
`some`).  The leading token of a value is its text before the first space; an
empty value has none.  When the attributes with the given name that precede
the first one whose leading token equals the format id all carry a value, the
value of that first one is returned; when no attribute with the name has the
format id as its leading token, none is returned. -/
theorem get_attr_map_value_space_token (media : GstSDPMedia) (name fmt : String) :
    (∃ r, sdp_utils_get_attr_map_value media name (some fmt) = some r) ∧
    (∀ (pre post : List GstSDPAttribute) (a : GstSDPAttribute) (v : String),
      media.attributes = pre ++ a :: post → a.key = name → a.value = some v →
      leading_token v = some fmt →
      (∀ b ∈ pre, b.key = name → ∃ w, b.value = some w ∧ leading_token w ≠ some fmt) →
      sdp_utils_get_attr_map_value media name (some fmt) = some (some v)) ∧
    ((∀ b ∈ media.attributes, b.key = name →
        ∀ w, b.value = some w → leading_token w ≠ some fmt) →
      sdp_utils_get_attr_map_value media name (some fmt) = some none) := by
  refine ⟨⟨_, get_attr_map_value_returns media name (some fmt)⟩, ?_, ?_⟩
  · intro pre post a v hl hk hv ht hpre
    exact get_attr_map_value_first media name fmt v pre post a hl hk hv ht hpre
  · intro h
    rw [get_attr_map_value_returns, attr_map_scan_none]
    intro w hw
    obtain ⟨b, hb, hbk, hbv⟩ := mem_same_name_values name media.attributes (some w) hw
    exact h b hb hbk w hbv

/-- Instances of C12: of two fmtp attributes the one for format id "96" is
returned, an attribute with another name in between being skipped; for the
format id "9", which is only the beginning of a token, none is returned. -/
theorem get_attr_map_value_space_token_witness :
    sdp_utils_get_attr_map_value
        ⟨"video", "RTP/AVP", ["97", "96"],
          [⟨"fmtp", some "97 apt=96"⟩, ⟨"mid", none⟩, ⟨"fmtp", some "96 x=1"⟩]⟩
        "fmtp" (some "96")
      = some (some "96 x=1") ∧
    sdp_utils_get_attr_map_value
        ⟨"video", "RTP/AVP", ["97", "96"],
          [⟨"fmtp", some "97 apt=96"⟩, ⟨"mid", none⟩, ⟨"fmtp", some "96 x=1"⟩]⟩
        "fmtp" (some "9")
      = some none :=
  ⟨(get_attr_map_value_space_token ⟨"video", "RTP/AVP", ["97", "96"],
        [⟨"fmtp", some "97 apt=96"⟩, ⟨"mid", none⟩, ⟨"fmtp", some "96 x=1"⟩]⟩ "fmtp" "96").2.1
      [⟨"fmtp", some "97 apt=96"⟩, ⟨"mid", none⟩] [] ⟨"fmtp", some "96 x=1"⟩ "96 x=1"
      rfl rfl rfl (by decide)
      (fun b hb hk => by
        rcases List.mem_cons.mp hb with rfl | hb
        · exact ⟨"97 apt=96", rfl, by decide⟩
        · rw [List.mem_singleton] at hb
          subst hb
          exact absurd hk (by decide)),
   (get_attr_map_value_space_token ⟨"video", "RTP/AVP", ["97", "96"],
        [⟨"fmtp", some "97 apt=96"⟩, ⟨"mid", none⟩, ⟨"fmtp", some "96 x=1"⟩]⟩ "fmtp" "9").2.2
      (by decide)⟩

/-! ## Direction attributes: value, idempotence, count -/

theorem isDirectionKey_spec_intersect (a : GstSDPAttribute) :
    IsDirectionKey (spec_intersect a).key ↔ IsDirectionKey a.key := by
  unfold spec_intersect
  split_ifs with h1 h2 h3 h4 h5 h6
  · rw [h1]
  · rw [h2]
  · exact ⟨fun _ => Or.inl h3, fun _ => by decide⟩
  · exact ⟨fun _ => Or.inr (Or.inl h4), fun _ => by decide⟩
  · exact ⟨fun _ => Or.inr (Or.inr (Or.inl h5)), fun _ => by decide⟩
  · exact ⟨fun _ => Or.inr (Or.inr (Or.inr h6)), fun _ => by decide⟩
  · exact Iff.rfl

theorem spec_intersect_direction_value (a : GstSDPAttribute) (h : IsDirectionKey a.key) :
    (spec_intersect a).value = some "" ∧
    ∀ v, spec_intersect ⟨a.key, v⟩ = spec_intersect a := by
  have n1 : a.key ≠ "setup" := by
    intro e
    rw [e] at h
    revert h
    decide
  have n2 : a.key ≠ "connection" := by
    intro e
    rw [e] at h
    revert h
    decide
  refine ⟨?_, fun v => ?_⟩
  · unfold spec_intersect
    simp only [n1, n2, if_false]
    split_ifs with h3 h4 h5 h6
    · rfl
    · rfl
    · rfl
    · rfl
    · exact absurd h (by simp [IsDirectionKey, h3, h4, h5, h6])
  · unfold spec_intersect
    simp only [n1, n2, if_false]
    split_ifs with h3 h4 h5 h6
    · rfl
    · rfl
    · rfl
    · rfl
    · exact absurd h (by simp [IsDirectionKey, h3, h4, h5, h6])

/-- C13 as stated does not hold: intersecting the attribute with key
"sendonly" and value "bogus" succeeds, the visitor is called with
("recvonly", ""), and the media iteration goes on to the next attribute and
returns `TRUE`. -/
theorem direction_bogus_value_counterexample :
    intersect_attribute ⟨"sendonly", some "bogus"⟩ (some record_visitor) []
      = (true, [⟨"recvonly", some ""⟩]) ∧
    sdp_utils_intersect_media_attributes
        ⟨"audio", "RTP/AVP", ["0"], [⟨"sendonly", some "bogus"⟩, ⟨"mid", some "a0"⟩]⟩
        (some record_visitor) []
      = (true, [⟨"recvonly", some ""⟩, ⟨"mid", some "a0"⟩]) ∧
    sdp_utils_intersect_session_attributes
        ⟨[⟨"sendonly", some "bogus"⟩, ⟨"mid", some "a0"⟩], []⟩ (some record_visitor) []
      = (true, [⟨"recvonly", some ""⟩, ⟨"mid", some "a0"⟩]) := by
  decide

/-- C13, amended: intersecting an attribute whose key matches a direction
token succeeds whatever value the attribute carries.  The value is not
inspected: for every value the intersection never fails, the visitor is called
once with the lower-case answer direction token (recvonly for sendonly,
sendonly for recvonly, sendrecv for sendrecv, inactive for inactive) and an
empty value, and the enclosing session or media iteration continues with the
next attribute. -/
theorem direction_attribute_value_ignored (key : String) :
    (IsDirectionKey key → ∀ v, NeverFails ⟨key, v⟩) ∧
    (EqIgnoreAsciiCase key "sendonly" → AnswersDirection key "recvonly") ∧
    (EqIgnoreAsciiCase key "recvonly" → AnswersDirection key "sendonly") ∧
    (EqIgnoreAsciiCase key "sendrecv" → AnswersDirection key "sendrecv") ∧
    (EqIgnoreAsciiCase key "inactive" → AnswersDirection key "inactive") := by
  have hans : ∀ token : String,
      (∀ v, spec_intersect ⟨key, v⟩ = ⟨token, some ""⟩) → AnswersDirection key token := by
    intro token hspec v
    refine ⟨?_, ?_⟩
    · apply hands_of_select
      rw [select_eq_spec, hspec v]
    · intro σ f rest ud
      rw [intersect_attributes_loop, intersect_attribute_eq, hspec v]
  refine ⟨?_, ?_, ?_, ?_, ?_⟩
  · intro _ v σ func ud
    rw [intersect_attribute_eq]
  · intro h
    apply hans
    intro v
    have n1 := ne_of_eqIgnoreAsciiCase _ _ "setup" h (by decide)
    have n2 := ne_of_eqIgnoreAsciiCase _ _ "connection" h (by decide)
    simp [spec_intersect, n1, n2, h]
  · intro h
    apply hans
    intro v
    have n1 := ne_of_eqIgnoreAsciiCase _ _ "setup" h (by decide)
    have n2 := ne_of_eqIgnoreAsciiCase _ _ "connection" h (by decide)
    have n3 := not_eqIgnoreAsciiCase_of _ _ "sendonly" h (by decide)
    simp [spec_intersect, n1, n2, n3, h]
  · intro h
    apply hans
    intro v
    have n1 := ne_of_eqIgnoreAsciiCase _ _ "setup" h (by decide)
    have n2 := ne_of_eqIgnoreAsciiCase _ _ "connection" h (by decide)
    have n3 := not_eqIgnoreAsciiCase_of _ _ "sendonly" h (by decide)
    have n4 := not_eqIgnoreAsciiCase_of _ _ "recvonly" h (by decide)
    simp [spec_intersect, n1, n2, n3, n4, h]
  · intro h
    apply hans
    intro v
    have n1 := ne_of_eqIgnoreAsciiCase _ _ "setup" h (by decide)
    have n2 := ne_of_eqIgnoreAsciiCase _ _ "connection" h (by decide)
    have n3 := not_eqIgnoreAsciiCase_of _ _ "sendonly" h (by decide)
    have n4 := not_eqIgnoreAsciiCase_of _ _ "recvonly" h (by decide)
    have n5 := not_eqIgnoreAsciiCase_of _ _ "sendrecv" h (by decide)
    simp [spec_intersect, n1, n2, n3, n4, n5, h]

/-- Instances of C13: the attribute (sendonly, bogus) is handed to the visitor
as (recvonly, ""), and the iteration goes on to the next attribute; the
attribute with key "INACTIVE" and no value is handed as (inactive, ""). -/
theorem direction_attribute_value_ignored_witness :
    EqIgnoreAsciiCase "sendonly" "sendonly" ∧
    intersect_attribute ⟨"sendonly", some "bogus"⟩ (some record_visitor) []
      = (true, [⟨"recvonly", some ""⟩]) ∧
    intersect_attributes_loop (some record_visitor)
        [⟨"sendonly", some "bogus"⟩, ⟨"mid", some "a0"⟩] []
      = intersect_attributes_loop (some record_visitor) [⟨"mid", some "a0"⟩]
          [⟨"recvonly", some ""⟩] ∧
    EqIgnoreAsciiCase "INACTIVE" "inactive" ∧
    intersect_attribute ⟨"INACTIVE", none⟩ (some record_visitor) []
      = (true, [⟨"inactive", some ""⟩]) :=
  ⟨by decide,
   ((direction_attribute_value_ignored "sendonly").2.1 (by decide) (some "bogus")).1
      _ record_visitor [],
   ((direction_attribute_value_ignored "sendonly").2.1 (by decide) (some "bogus")).2
      _ record_visitor [⟨"mid", some "a0"⟩] [],
   by decide,
   ((direction_attribute_value_ignored "INACTIVE").2.2.2.2 (by decide) none).1
      _ record_visitor []⟩

/-- C14: writing T for the answer-direction transform on the four direction
tokens (T sendonly = recvonly, T recvonly = sendonly, T sendrecv = sendrecv,
T inactive = inactive), T (T d) = T d holds for d = sendrecv and for
d = inactive and fails for d = sendonly and for d = recvonly. -/
theorem direction_answer_idempotent_cases :
    direction_answer_token "sendonly" = some "recvonly" ∧
    direction_answer_token "recvonly" = some "sendonly" ∧
    direction_answer_token "sendrecv" = some "sendrecv" ∧
    direction_answer_token "inactive" = some "inactive" ∧
    (direction_answer_token "sendrecv").bind direction_answer_token
      = direction_answer_token "sendrecv" ∧
    (direction_answer_token "inactive").bind direction_answer_token
      = direction_answer_token "inactive" ∧
    (direction_answer_token "sendonly").bind direction_answer_token
      ≠ direction_answer_token "sendonly" ∧
    (direction_answer_token "recvonly").bind direction_answer_token
      ≠ direction_answer_token "recvonly" ∧
    directions = ["sendonly", "recvonly", "sendrecv", "inactive"] := by
  decide

/-- C16: `sdp_utils_is_attribute_in_media` returns true if and only if some
attribute of the media has exactly the same key and exactly the same value
(two missing values count as the same, a missing and an empty value do not);
a key or value that differs by case, or that is only a part of the other,
does not match. -/
theorem is_attribute_in_media_iff :
    (∀ (media : GstSDPMedia) (attr : GstSDPAttribute),
      sdp_utils_is_attribute_in_media media attr = true ↔
        ∃ a ∈ media.attributes, a.key = attr.key ∧ a.value = attr.value) ∧
    sdp_utils_is_attribute_in_media ⟨"audio", "RTP/AVP", ["0"], [⟨"rtpmap", some "0 PCMU/8000"⟩]⟩
      ⟨"rtpmap", some "0 PCMU/8000"⟩ = true ∧
    sdp_utils_is_attribute_in_media ⟨"audio", "RTP/AVP", ["0"], [⟨"rtpmap", some "0 PCMU/8000"⟩]⟩
      ⟨"RTPMAP", some "0 PCMU/8000"⟩ = false ∧
    sdp_utils_is_attribute_in_media ⟨"audio", "RTP/AVP", ["0"], [⟨"rtpmap", some "0 PCMU/8000"⟩]⟩
      ⟨"rtpmap", some "0 pcmu/8000"⟩ = false ∧
    sdp_utils_is_attribute_in_media ⟨"audio", "RTP/AVP", ["0"], [⟨"rtpmap", some "0 PCMU/8000"⟩]⟩
      ⟨"rtpmap", some "0 PCMU"⟩ = false ∧
    sdp_utils_is_attribute_in_media ⟨"audio", "RTP/AVP", ["0"], [⟨"sendrecv", some ""⟩]⟩
      ⟨"sendrecv", none⟩ = false := by
  refine ⟨?_, by decide, by decide, by decide, by decide, by decide⟩
  intro media attr
  unfold sdp_utils_is_attribute_in_media
  induction media.attributes with
  | nil => simp [is_attribute_in_media_loop]
  | cons a rest ih =>
    unfold is_attribute_in_media_loop
    simp only [Bool.and_eq_true, beq_iff_eq, g_strcmp0_eq_zero_iff_eq, Option.some.injEq,
      List.mem_cons, exists_eq_or_imp]
    by_cases ha : attr.key = a.key ∧ attr.value = a.value
    · simp [ha]
    · have ha2 : ¬ (a.key = attr.key ∧ a.value = attr.value) :=
        fun e => ha ⟨e.1.symm, e.2.symm⟩
      simp only [ha, ha2, if_false, false_or]
      exact ih

theorem intersect_media_recorded (offer : GstSDPMedia) :
    (sdp_utils_intersect_media_attributes offer (some record_visitor) []).2
      = offer.attributes.map spec_intersect := by
  simp [sdp_utils_intersect_media_attributes, intersect_attributes_loop_eq,
    foldl_record_visitor]

/-- C17: attribute intersection preserves the number of direction attributes
(attributes whose key is a direction token, case ignored): the attribute
sequence that `sdp_utils_intersect_media_attributes` hands to the visitor has
as many direction attributes as the media block, so for every media block
with at most one direction attribute the sequence has at most one. -/
theorem intersect_preserves_direction_count (offer : GstSDPMedia) :
    direction_count (sdp_utils_intersect_media_attributes offer (some record_visitor) []).2
      = direction_count offer.attributes ∧
    (direction_count offer.attributes ≤ 1 →
      direction_count (sdp_utils_intersect_media_attributes offer (some record_visitor) []).2
        ≤ 1) := by
  have hcount : direction_count
      (sdp_utils_intersect_media_attributes offer (some record_visitor) []).2
      = direction_count offer.attributes := by
    rw [intersect_media_recorded]
    unfold direction_count
    rw [List.countP_map]
    apply List.countP_congr
    intro a _
    simp only [Function.comp_apply, decide_eq_true_eq]
    exact isDirectionKey_spec_intersect a
  exact ⟨hcount, fun h => hcount ▸ h⟩

/-- Instance of C17: the media block [mid, SendOnly, setup:actpass] has one
direction attribute, and so has the intersected sequence. -/
theorem intersect_preserves_direction_count_witness :
    direction_count [⟨"mid", some "a0"⟩, ⟨"SendOnly", some ""⟩, ⟨"setup", some "actpass"⟩] ≤ 1 ∧
    direction_count (sdp_utils_intersect_media_attributes
      ⟨"audio", "RTP/AVP", ["0"],
        [⟨"mid", some "a0"⟩, ⟨"SendOnly", some ""⟩, ⟨"setup", some "actpass"⟩]⟩
      (some record_visitor) []).2 ≤ 1 :=
  ⟨by decide,
   (intersect_preserves_direction_count ⟨"audio", "RTP/AVP", ["0"],
      [⟨"mid", some "a0"⟩, ⟨"SendOnly", some ""⟩, ⟨"setup", some "actpass"⟩]⟩).2 (by decide)⟩

/-! ## Iteration over the media blocks -/

theorem for_each_media_loop_cons_false {σ : Type} (func : GstSDPMedia → σ → Bool × σ)
    (m : GstSDPMedia) (rest : List GstSDPMedia) (s s1 : σ) (h : func m s = (false, s1)) :
    for_each_media_loop func (m :: rest) s = (false, s1) := by
  simp [for_each_media_loop, h]

theorem for_each_media_loop_cons_true {σ : Type} (func : GstSDPMedia → σ → Bool × σ)
    (m : GstSDPMedia) (rest : List GstSDPMedia) (s s1 : σ) (h : func m s = (true, s1)) :
    for_each_media_loop func (m :: rest) s = for_each_media_loop func rest s1 := by
  simp [for_each_media_loop, h]

theorem for_each_media_loop_traced {σ : Type} (func : GstSDPMedia → σ → Bool × σ)
    (l : List GstSDPMedia) (s : σ) (tr0 : List (GstSDPMedia × Bool)) :
    ∃ tr1 : List (GstSDPMedia × Bool),
      (for_each_media_loop (traced_visitor func) l (s, tr0)).2.2 = tr0 ++ tr1 ∧
      tr1.map Prod.fst <+: l ∧
      ((for_each_media_loop (traced_visitor func) l (s, tr0)).1 = true →
        tr1.map Prod.fst = l ∧ ∀ e ∈ tr1, e.2 = true) ∧
      ((for_each_media_loop (traced_visitor func) l (s, tr0)).1 = false →
        ∃ init m, tr1 = init ++ [(m, false)] ∧ ∀ e ∈ init, e.2 = true) ∧
      for_each_media_loop func l s =
        ((for_each_media_loop (traced_visitor func) l (s, tr0)).1,
         (for_each_media_loop (traced_visitor func) l (s, tr0)).2.1) := by
  induction l generalizing s tr0 with
  | nil =>
    refine ⟨[], ?_, ?_, ?_, ?_, ?_⟩
    · simp [for_each_media_loop]
    · simp
    · intro _
      simp
    · intro h
      simp [for_each_media_loop] at h
    · simp [for_each_media_loop]
  | cons m rest ih =>
    cases hf : func m s with
    | mk b s1 =>
      cases b with
      | false =>
        have ht : traced_visitor func m (s, tr0) = (false, (s1, tr0 ++ [(m, false)])) := by
          simp [traced_visitor, hf]
        rw [for_each_media_loop_cons_false _ m rest _ _ ht,
          for_each_media_loop_cons_false _ m rest _ _ hf]
        refine ⟨[(m, false)], rfl, ?_, ?_, ?_, rfl⟩
        · simp
        · intro h
          simp at h
        · intro _
          exact ⟨[], m, rfl, by simp⟩
      | true =>
        have ht : traced_visitor func m (s, tr0) = (true, (s1, tr0 ++ [(m, true)])) := by
          simp [traced_visitor, hf]
        rw [for_each_media_loop_cons_true _ m rest _ _ ht,
          for_each_media_loop_cons_true _ m rest _ _ hf]
        obtain ⟨tr1, h1, h2, h3, h4, h5⟩ := ih s1 (tr0 ++ [(m, true)])
        refine ⟨(m, true) :: tr1, ?_, ?_, ?_, ?_, h5⟩
        · rw [h1]
          simp
        · simpa using h2
        · intro h
          obtain ⟨e1, e2⟩ := h3 h
          refine ⟨by simp [e1], ?_⟩
          intro e he
          rcases List.mem_cons.mp he with rfl | he
          · rfl
          · exact e2 e he
        · intro h
          obtain ⟨init, m2, e1, e2⟩ := h4 h
          refine ⟨(m, true) :: init, m2, by simp [e1], ?_⟩
          intro e he
          rcases List.mem_cons.mp he with rfl | he
          · rfl
          · exact e2 e he

/-- C15: `sdp_utils_for_each_media` calls the visitor on the media blocks in
message order (the blocks of the calls made are a prefix of the media list).
When it returns true it has called the visitor on every block and every call
returned true; when it returns false the last call made is the first one that
returned false, so no later block is visited.  Hence it returns true exactly
when the visitor returned true for every block, and in particular for a
message with no media.  The trace does not change the result or the state of
`user_data`.  Example: a visitor that counts its calls and returns false on
the video block is called twice on [audio, video, application]. -/
theorem for_each_media_in_order :
    (∀ (σ : Type) (msg : GstSDPMessage) (func : GstSDPMedia → σ → Bool × σ) (ud : σ),
      (for_each_media_trace msg func ud).map Prod.fst <+: msg.medias ∧
      ((sdp_utils_for_each_media msg func ud).1 = true ↔
        ((for_each_media_trace msg func ud).map Prod.fst = msg.medias ∧
          ∀ e ∈ for_each_media_trace msg func ud, e.2 = true)) ∧
      ((sdp_utils_for_each_media msg func ud).1 = false ↔
        ∃ init m, for_each_media_trace msg func ud = init ++ [(m, false)] ∧
          ∀ e ∈ init, e.2 = true) ∧
      sdp_utils_for_each_media msg func ud =
        ((sdp_utils_for_each_media msg (traced_visitor func) (ud, [])).1,
         (sdp_utils_for_each_media msg (traced_visitor func) (ud, [])).2.1)) ∧
    (∀ (σ : Type) (attrs : List GstSDPAttribute) (func : GstSDPMedia → σ → Bool × σ) (ud : σ),
      sdp_utils_for_each_media ⟨attrs, []⟩ func ud = (true, ud)) ∧
    sdp_utils_for_each_media
        ⟨[], [⟨"audio", "RTP/AVP", [], []⟩, ⟨"video", "RTP/AVP", [], []⟩,
          ⟨"application", "RTP/AVP", [], []⟩]⟩
        (fun m calls => (decide (m.media ≠ "video"), calls + 1)) 0
      = (false, 2) := by
  refine ⟨?_, ?_, by decide⟩
  · intro σ msg func ud
    obtain ⟨tr1, h1, h2, h3, h4, h5⟩ := for_each_media_loop_traced func msg.medias ud []
    have htr : for_each_media_trace msg func ud = tr1 := by
      unfold for_each_media_trace sdp_utils_for_each_media
      rw [h1]
      rfl
    have hflag : (sdp_utils_for_each_media msg func ud).1
        = (for_each_media_loop (traced_visitor func) msg.medias (ud, [])).1 := by
      unfold sdp_utils_for_each_media
      rw [h5]
    rw [htr, hflag]
    refine ⟨h2, ⟨h3, ?_⟩, ⟨h4, ?_⟩, h5⟩
    · rintro ⟨-, hall⟩
      by_contra hne
      have hfalse : (for_each_media_loop (traced_visitor func) msg.medias (ud, [])).1 = false := by
        simpa using hne
      obtain ⟨init, m, e1, -⟩ := h4 hfalse
      have := hall (m, false) (by simp [e1])
      simp at this
    · rintro ⟨init, m, e1, -⟩
      by_contra hne
      have htrue : (for_each_media_loop (traced_visitor func) msg.medias (ud, [])).1 = true := by
        simpa using hne
      have := (h3 htrue).2 (m, false) (by simp [e1])
      simp at this
  · intro σ attrs func ud
    rfl

/-! ## The RTP media handlers: properties of the model of the specification -/

theorem add_generic_call_eq (self : KmsSdpRtpAvpMediaHandler) (c : GenericPayloadCall) :
    ∃ format, add_generic_call self c = add_generic_payload self format := by
  cases c with
  | audio format => exact ⟨format, rfl⟩
  | video format => exact ⟨format, rfl⟩

theorem add_generic_payload_cases (self : KmsSdpRtpAvpMediaHandler)
    (mgr : KmsISdpPayloadManager) (hm : self.manager = some mgr) (format : String) :
    (mgr.allocate (used_payloads self) = none ∧
      add_generic_payload self format
        = (HandlerResult.error HandlerError.NoPayloadTypeAvailable, self)) ∨
    (∃ pt, mgr.allocate (used_payloads self) = some pt ∧
      add_generic_payload self format
        = (HandlerResult.ok pt,
            { self with payloads := self.payloads ++ [⟨pt, format, true, none, none⟩] })) := by
  unfold add_generic_payload
  cases ha : mgr.allocate (used_payloads self) with
  | none =>
    refine Or.inl ⟨rfl, ?_⟩
    simp only [hm, ha]
  | some pt =>
    refine Or.inr ⟨pt, rfl, ?_⟩
    simp only [hm, ha]

theorem add_generic_calls_spec (mgr : KmsISdpPayloadManager) (calls : List GenericPayloadCall)
    (self : KmsSdpRtpAvpMediaHandler) (hm : self.manager = some mgr) :
    (add_generic_calls self calls).2.manager = some mgr ∧
    used_payloads (add_generic_calls self calls).2
      = used_payloads self ++ allocated_payloads (add_generic_calls self calls).1 ∧
    (∀ n ∈ allocated_payloads (add_generic_calls self calls).1, 96 ≤ n ∧ n ≤ 127) ∧
    (∀ res ∈ (add_generic_calls self calls).1,
      (∃ pt, res = HandlerResult.ok pt) ∨
      res = HandlerResult.error HandlerError.NoPayloadTypeAvailable) ∧
    ((used_payloads self).Nodup → (used_payloads (add_generic_calls self calls).2).Nodup) := by
  induction calls generalizing self with
  | nil =>
    refine ⟨hm, ?_, ?_, ?_, fun h => h⟩
    · simp [add_generic_calls, allocated_payloads]
    · intro n hn
      simp [add_generic_calls, allocated_payloads] at hn
    · intro res hres
      simp [add_generic_calls] at hres
  | cons c cs ih =>
    obtain ⟨format, hc⟩ := add_generic_call_eq self c
    rcases add_generic_payload_cases self mgr hm format with ⟨-, hfail⟩ | ⟨pt, halloc, hok⟩
    · have hstep : add_generic_call self c
          = (HandlerResult.error HandlerError.NoPayloadTypeAvailable, self) := hc.trans hfail
      obtain ⟨i1, i2, i3, i4, i5⟩ := ih self hm
      simp only [add_generic_calls, hstep, allocated_payloads]
      refine ⟨i1, i2, i3, ?_, i5⟩
      intro res hres
      rcases List.mem_cons.mp hres with rfl | hres
      · exact Or.inr rfl
      · exact i4 res hres
    · have hstep : add_generic_call self c
          = (HandlerResult.ok pt,
              { self with payloads := self.payloads ++ [⟨pt, format, true, none, none⟩] }) :=
        hc.trans hok
      have hused : used_payloads
          { self with payloads := self.payloads ++ [⟨pt, format, true, none, none⟩] }
          = used_payloads self ++ [pt] := by
        simp [used_payloads]
      obtain ⟨i1, i2, i3, i4, i5⟩ :=
        ih { self with payloads := self.payloads ++ [⟨pt, format, true, none, none⟩] } hm
      simp only [add_generic_calls, hstep, allocated_payloads]
      refine ⟨i1, ?_, ?_, ?_, ?_⟩
      · rw [i2, hused]
        simp
      · intro n hn
        rcases List.mem_cons.mp hn with rfl | hn
        · exact mgr.in_range _ _ halloc
        · exact i3 n hn
      · intro res hres
        rcases List.mem_cons.mp hres with rfl | hres
        · exact Or.inl ⟨pt, rfl⟩
        · exact i4 res hres
      · intro hnd
        apply i5
        rw [hused]
        exact List.Nodup.append hnd (List.nodup_singleton pt)
          (by
            intro a ha hb
            rw [List.mem_singleton] at hb
            subst hb
            exact mgr.fresh _ _ halloc ha)

theorem dynamic_range_pigeonhole (l : List Nat) (hnd : l.Nodup)
    (hr : ∀ n ∈ l, 96 ≤ n ∧ n ≤ 127) :
    l.length ≤ 32 ∧ (l.length = 32 → ∀ n, 96 ≤ n → n ≤ 127 → n ∈ l) := by
  have hsub : l ⊆ List.range' 96 32 := by
    intro n hn
    rw [List.mem_range'_1]
    have := hr n hn
    omega
  have hsp := hnd.subperm hsub
  have hlen : l.length ≤ 32 := by
    have := hsp.length_le
    simpa using this
  refine ⟨hlen, ?_⟩
  intro h32 n h1 h2
  have hperm := hsp.perm_of_length_le (by simp [h32])
  rw [hperm.mem_iff, List.mem_range'_1]
  omega

/-- C18: on the AVP handler of the specification, addExtmap (id, uri) fails
with InvalidExtmapId for every id outside 1..14, in particular for 0 and 15,
and leaves the handler, hence its registered extmap entries, unchanged; for
an id in 1..14 with no prior entry it succeeds and appends the entry. -/
theorem add_extmap_id_range (self : KmsSdpRtpAvpMediaHandler) (uri : String) :
    (∀ id, id < 1 ∨ 14 < id →
      kms_sdp_rtp_avp_media_handler_add_extmap self id uri
        = (HandlerResult.error HandlerError.InvalidExtmapId, self)) ∧
    kms_sdp_rtp_avp_media_handler_add_extmap self 0 uri
      = (HandlerResult.error HandlerError.InvalidExtmapId, self) ∧
    kms_sdp_rtp_avp_media_handler_add_extmap self 15 uri
      = (HandlerResult.error HandlerError.InvalidExtmapId, self) ∧
    (∀ id, 1 ≤ id → id ≤ 14 → (∀ e ∈ self.extmaps, e.ext_id ≠ id) →
      kms_sdp_rtp_avp_media_handler_add_extmap self id uri
        = (HandlerResult.ok (), { self with extmaps := self.extmaps ++ [⟨id, uri⟩] })) := by
  have hout : ∀ id, id < 1 ∨ 14 < id →
      kms_sdp_rtp_avp_media_handler_add_extmap self id uri
        = (HandlerResult.error HandlerError.InvalidExtmapId, self) := by
    intro id hid
    unfold kms_sdp_rtp_avp_media_handler_add_extmap
    rw [if_pos hid]
  refine ⟨hout, hout 0 (Or.inl (by decide)), hout 15 (Or.inr (by decide)), ?_⟩
  intro id h1 h14 hnone
  unfold kms_sdp_rtp_avp_media_handler_add_extmap
  have hid : ¬ (id < 1 ∨ 14 < id) := by omega
  have hfind : self.extmaps.find? (fun e => decide (e.ext_id = id)) = none := by
    rw [List.find?_eq_none]
    intro e he
    simpa using hnone e he
  rw [if_neg hid, hfind]

/-- Instances of C18 on a new handler: id 0 and id 15 fail and leave the
extmap entries empty, id 5 succeeds and registers the entry. -/
theorem add_extmap_id_range_witness :
    (kms_sdp_rtp_avp_media_handler_add_extmap kms_sdp_rtp_avp_media_handler_new 0 "urn:a").1
      = HandlerResult.error HandlerError.InvalidExtmapId ∧
    (kms_sdp_rtp_avp_media_handler_add_extmap kms_sdp_rtp_avp_media_handler_new 15 "urn:a").2.extmaps
      = [] ∧
    (kms_sdp_rtp_avp_media_handler_add_extmap kms_sdp_rtp_avp_media_handler_new 5 "urn:a").1
      = HandlerResult.ok () ∧
    (kms_sdp_rtp_avp_media_handler_add_extmap kms_sdp_rtp_avp_media_handler_new 5 "urn:a").2.extmaps
      = [⟨5, "urn:a"⟩] :=
  ⟨congrArg Prod.fst
      ((add_extmap_id_range kms_sdp_rtp_avp_media_handler_new "urn:a").1 0 (Or.inl (by decide))),
   congrArg (fun r => r.2.extmaps)
      ((add_extmap_id_range kms_sdp_rtp_avp_media_handler_new "urn:a").1 15 (Or.inr (by decide))),
   congrArg Prod.fst
      ((add_extmap_id_range kms_sdp_rtp_avp_media_handler_new "urn:a").2.2.2 5
        (by decide) (by decide) (fun e he => by simp [kms_sdp_rtp_avp_media_handler_new] at he)),
   congrArg (fun r => r.2.extmaps)
      ((add_extmap_id_range kms_sdp_rtp_avp_media_handler_new "urn:a").2.2.2 5
        (by decide) (by decide) (fun e he => by simp [kms_sdp_rtp_avp_media_handler_new] at he))⟩

/-- C19: on the AVP handler of the specification, starting from a handler
with a bound payload manager and no payload entries, successive
addGenericAudioPayload / addGenericVideoPayload calls return pairwise
distinct payload-type numbers in 96..127, which are the payload types of the
registered entries; at most 32 calls succeed and every failure is
NoPayloadTypeAvailable; once 32 calls have succeeded the range is exhausted,
and every further call fails with NoPayloadTypeAvailable and leaves the
handler, hence the registered entries, unchanged. -/
theorem generic_payloads_exhaust_dynamic_range (mgr : KmsISdpPayloadManager)
    (self : KmsSdpRtpAvpMediaHandler) (calls : List GenericPayloadCall)
    (hm : self.manager = some mgr) (he : self.payloads = []) :
    (allocated_payloads (add_generic_calls self calls).1).Nodup ∧
    (∀ n ∈ allocated_payloads (add_generic_calls self calls).1, 96 ≤ n ∧ n ≤ 127) ∧
    used_payloads (add_generic_calls self calls).2
      = allocated_payloads (add_generic_calls self calls).1 ∧
    (allocated_payloads (add_generic_calls self calls).1).length ≤ 32 ∧
    (∀ res ∈ (add_generic_calls self calls).1,
      (∃ pt, res = HandlerResult.ok pt) ∨
      res = HandlerResult.error HandlerError.NoPayloadTypeAvailable) ∧
    ((allocated_payloads (add_generic_calls self calls).1).length = 32 →
      ∀ c, add_generic_call (add_generic_calls self calls).2 c
        = (HandlerResult.error HandlerError.NoPayloadTypeAvailable,
            (add_generic_calls self calls).2)) := by
  obtain ⟨i1, i2, i3, i4, i5⟩ := add_generic_calls_spec mgr calls self hm
  have hused0 : used_payloads self = [] := by simp [used_payloads, he]
  rw [hused0, List.nil_append] at i2
  have hnd : (allocated_payloads (add_generic_calls self calls).1).Nodup := by
    rw [← i2]
    exact i5 (by rw [hused0]; exact List.nodup_nil)
  obtain ⟨hlen, hfull⟩ := dynamic_range_pigeonhole _ hnd i3
  refine ⟨hnd, i3, i2, hlen, i4, ?_⟩
  intro h32 c
  obtain ⟨format, hc⟩ := add_generic_call_eq (add_generic_calls self calls).2 c
  rcases add_generic_payload_cases _ mgr i1 format with ⟨-, hfail⟩ | ⟨pt, halloc, -⟩
  · exact hc.trans hfail
  · exfalso
    have hr := mgr.in_range _ _ halloc
    have hfresh := mgr.fresh _ _ halloc
    rw [i2] at hfresh
    exact hfresh (hfull h32 pt hr.1 hr.2)

/-- Instances of C19 with the manager that hands out the lowest free number:
two calls return 96 and 97; of 33 calls the first 32 return 96..127 and the
last fails with NoPayloadTypeAvailable. -/
theorem generic_payloads_exhaust_dynamic_range_witness :
    handler_with_first_free_manager.manager = some first_free_manager ∧
    handler_with_first_free_manager.payloads = [] ∧
    (allocated_payloads (add_generic_calls handler_with_first_free_manager
      (List.replicate 33 (GenericPayloadCall.audio "opus/48000/2"))).1).length ≤ 32 ∧
    (add_generic_calls handler_with_first_free_manager
      [GenericPayloadCall.audio "opus/48000/2", GenericPayloadCall.video "VP8/90000"]).1
      = [HandlerResult.ok 96, HandlerResult.ok 97] ∧
    (add_generic_calls handler_with_first_free_manager
      (List.replicate 33 (GenericPayloadCall.audio "opus/48000/2"))).1
      = (List.range' 96 32).map HandlerResult.ok
          ++ [HandlerResult.error HandlerError.NoPayloadTypeAvailable] :=
  ⟨rfl, rfl,
   (generic_payloads_exhaust_dynamic_range first_free_manager handler_with_first_free_manager
      (List.replicate 33 (GenericPayloadCall.audio "opus/48000/2")) rfl rfl).2.2.2.1,
   by decide, by decide⟩

/-- C20: on the AVPF handler of the specification, reduced against a peer
offer, the retained entries are the entries of the handler whose payload type
the peer lists, in the order of the handler, and the feedback set of every
retained entry is the intersection of the feedback tokens configured for it
with the tokens the peer advertises for its payload type. -/
theorem avpf_reduce_feedback_intersection (self : KmsSdpRtpAvpfMediaHandler)
    (peer : GstSDPMedia) (kept : List PayloadEntry)
    (h : avpf_reduce_against_offer self peer = HandlerResult.ok kept) :
    kept.map (fun e => e.payload)
      = (self.parent.payloads.filter (entry_retained peer)).map (fun e => e.payload) ∧
    ∀ r ∈ kept, ∃ e ∈ self.parent.payloads,
      entry_retained peer e = true ∧ r.payload = e.payload ∧
      ∃ fb, r.feedback = some fb ∧
        ∀ t, t ∈ fb ↔ (t ∈ local_feedback self e ∧ t ∈ peer_feedback peer e.payload) := by
  unfold avpf_reduce_against_offer at h
  simp only at h
  split at h
  · exact HandlerResult.noConfusion h
  · have hk := HandlerResult.ok.inj h
    subst hk
    refine ⟨by simp [List.map_map, Function.comp_def], ?_⟩
    intro r hr
    obtain ⟨e, he, rfl⟩ := List.mem_map.mp hr
    obtain ⟨hmem, hret⟩ := List.mem_filter.mp he
    refine ⟨e, hmem, hret, rfl, _, rfl, ?_⟩
    intro t
    simp [List.mem_filter]

/-- Instance of C20: the handler with PT 100 and feedback {"nack", "ccm fir"},
reduced against a peer whose PT 100 advertises {"nack"}, retains PT 100 with
feedback {"nack"} only. -/
theorem avpf_reduce_feedback_intersection_witness :
    avpf_reduce_against_offer avpf_handler_pt100 peer_offer_pt100_nack
      = HandlerResult.ok [⟨100, "VP8/90000", false, none, some ["nack"]⟩] ∧
    [PayloadEntry.mk 100 "VP8/90000" false none (some ["nack"])].map (fun e => e.payload)
      = (avpf_handler_pt100.parent.payloads.filter
          (entry_retained peer_offer_pt100_nack)).map (fun e => e.payload) ∧
    peer_feedback peer_offer_pt100_nack 100 = ["nack"] :=
  ⟨by decide,
   (avpf_reduce_feedback_intersection avpf_handler_pt100 peer_offer_pt100_nack
      [⟨100, "VP8/90000", false, none, some ["nack"]⟩] (by decide)).1,
   by decide⟩

/-! ## Intersection never fails; direction and role of the two sides -/

theorem set_direction_answer_isSome (attr : GstSDPAttribute)
    (h : (sdp_utils_attribute_is_direction attr).isSome = true) :
    (sdp_utils_set_direction_answer attr).isSome = true := by
  rw [attribute_is_direction_isSome] at h
  simp only [sdp_utils_set_direction_answer, beq_iff_eq, g_ascii_strcasecmp_eq_zero_iff,
    SENDONLY_STR, RECVONLY_STR, SENDRECV_STR, INACTIVE_STR, gst_sdp_attribute_set]
  split_ifs with h1 h2 h3 h4
  · rfl
  · rfl
  · rfl
  · rfl
  · exact absurd h (by simp [IsDirectionKey, h1, h2, h3, h4])

theorem foldl_count_visitor (l : List GstSDPAttribute) (n : Nat) :
    l.foldl (fun s a => count_visitor a s) n = n + l.length := by
  induction l generalizing n with
  | nil => simp
  | cons a rest ih =>
    rw [List.foldl_cons, ih]
    simp only [count_visitor, List.length_cons]
    omega

/-- C21: attribute construction succeeds whenever the key is not `NULL`, and
then attribute intersection succeeds on every attribute: the direction-error
branch is unreachable, because an attribute that direction detection accepts
is answered by `sdp_utils_set_direction_answer`.  Hence
`sdp_utils_intersect_session_attributes` and
`sdp_utils_intersect_media_attributes` return `TRUE` for every input and every
visitor, and a non-`NULL` visitor is called exactly once per input attribute:
the visitor that counts its calls ends at the number of attributes. -/
theorem intersect_attributes_always_succeed :
    (∀ (key : String) (value : Option String),
      (gst_sdp_attribute_set (some key) value).isSome = true) ∧
    (∀ attr : GstSDPAttribute, (sdp_utils_attribute_is_direction attr).isSome = true →
      (sdp_utils_set_direction_answer attr).isSome = true) ∧
    (∀ attr : GstSDPAttribute, (intersect_attribute_select attr).isSome = true) ∧
    (∀ (σ : Type) (msg : GstSDPMessage) (func : Option (GstSDPAttribute → σ → σ)) (ud : σ),
      (sdp_utils_intersect_session_attributes msg func ud).1 = true) ∧
    (∀ (σ : Type) (offer : GstSDPMedia) (func : Option (GstSDPAttribute → σ → σ)) (ud : σ),
      (sdp_utils_intersect_media_attributes offer func ud).1 = true) ∧
    (∀ msg : GstSDPMessage,
      (sdp_utils_intersect_session_attributes msg (some count_visitor) 0).2
        = msg.attributes.length) ∧
    (∀ offer : GstSDPMedia,
      (sdp_utils_intersect_media_attributes offer (some count_visitor) 0).2
        = offer.attributes.length) ∧
    (∀ offer : GstSDPMedia,
      ((sdp_utils_intersect_media_attributes offer (some record_visitor) []).2).length
        = offer.attributes.length) := by
  refine ⟨?_, set_direction_answer_isSome, ?_, ?_, ?_, ?_, ?_, ?_⟩
  · intro key value
    rfl
  · intro attr
    rw [select_eq_spec]
    rfl
  · intro σ msg func ud
    simp [sdp_utils_intersect_session_attributes, intersect_attributes_loop_eq]
  · intro σ offer func ud
    simp [sdp_utils_intersect_media_attributes, intersect_attributes_loop_eq]
  · intro msg
    simp [sdp_utils_intersect_session_attributes, intersect_attributes_loop_eq,
      foldl_count_visitor]
  · intro offer
    simp [sdp_utils_intersect_media_attributes, intersect_attributes_loop_eq,
      foldl_count_visitor]
  · intro offer
    rw [intersect_media_recorded, List.length_map]

/-- Instance of C21: "SendOnly" is accepted by direction detection and
answered. -/
theorem intersect_attributes_always_succeed_witness :
    (sdp_utils_attribute_is_direction ⟨"SendOnly", some "bogus"⟩).isSome = true ∧
    (sdp_utils_set_direction_answer ⟨"SendOnly", some "bogus"⟩).isSome = true :=
  ⟨by decide, intersect_attributes_always_succeed.2.1 ⟨"SendOnly", some "bogus"⟩ (by decide)⟩

/-- C23: the two sides compute complementary connection roles from the same
description: `sdp_utils_media_is_active` for the offerer is the negation of
`sdp_utils_media_is_active` for the answerer, whatever the setup attribute is
and whether or not it is present. -/
theorem media_is_active_complementary (media : GstSDPMedia) :
    sdp_utils_media_is_active media true = !sdp_utils_media_is_active media false := by
  rw [media_is_active_of_value media true, media_is_active_of_value media false]
  split_ifs <;> rfl

theorem spec_intersect_of_direction (a : GstSDPAttribute) (h : IsDirectionKey a.key) :
    spec_intersect a =
      if EqIgnoreAsciiCase a.key "sendonly" then ⟨"recvonly", some ""⟩
      else if EqIgnoreAsciiCase a.key "recvonly" then ⟨"sendonly", some ""⟩
      else if EqIgnoreAsciiCase a.key "sendrecv" then ⟨"sendrecv", some ""⟩
      else ⟨"inactive", some ""⟩ := by
  have n1 : a.key ≠ "setup" := by
    intro e
    rw [e] at h
    revert h
    decide
  have n2 : a.key ≠ "connection" := by
    intro e
    rw [e] at h
    revert h
    decide
  unfold spec_intersect
  simp only [n1, n2, if_false]
  split_ifs with h3 h4 h5 h6
  · rfl
  · rfl
  · rfl
  · rfl
  · exact absurd h (by simp [IsDirectionKey, h3, h4, h5, h6])

/-- Direction detection on the intersected attribute: it is accepted exactly
when the attribute is, with the index of the reverse direction. -/
theorem attribute_is_direction_spec_intersect (a : GstSDPAttribute) :
    (sdp_utils_attribute_is_direction (spec_intersect a)).map GstSDPDirection.ofIndex
      = (sdp_utils_attribute_is_direction a).map
          (fun i => reverse_direction (GstSDPDirection.ofIndex i)) := by
  by_cases hd : IsDirectionKey a.key
  · rw [spec_intersect_of_direction a hd, attribute_is_direction_eq a]
    by_cases h1 : EqIgnoreAsciiCase a.key "sendonly"
    · simp only [h1, if_true]
      decide
    by_cases h2 : EqIgnoreAsciiCase a.key "recvonly"
    · simp only [h1, h2, if_true, if_false]
      decide
    by_cases h3 : EqIgnoreAsciiCase a.key "sendrecv"
    · simp only [h1, h2, h3, if_true, if_false]
      decide
    by_cases h4 : EqIgnoreAsciiCase a.key "inactive"
    · simp only [h1, h2, h3, h4, if_true, if_false]
      decide
    exact absurd hd (by simp [IsDirectionKey, h1, h2, h3, h4])
  · have hd2 : ¬ IsDirectionKey (spec_intersect a).key :=
      fun h => hd ((isDirectionKey_spec_intersect a).mp h)
    have e1 : sdp_utils_attribute_is_direction a = none := by
      rw [← Option.not_isSome_iff_eq_none, attribute_is_direction_isSome]
      exact hd
    have e2 : sdp_utils_attribute_is_direction (spec_intersect a) = none := by
      rw [← Option.not_isSome_iff_eq_none, attribute_is_direction_isSome]
      exact hd2
    rw [e1, e2]
    rfl

theorem config_get_direction_loop_map (dir : GstSDPDirection) (l : List GstSDPAttribute) :
    config_get_direction_loop (reverse_direction dir) (l.map spec_intersect)
      = reverse_direction (config_get_direction_loop dir l) := by
  induction l with
  | nil => rfl
  | cons a rest ih =>
    rw [List.map_cons, config_get_direction_loop_cons, config_get_direction_loop_cons]
    have h := attribute_is_direction_spec_intersect a
    cases h1 : sdp_utils_attribute_is_direction a with
    | none =>
      rw [h1] at h
      cases h2 : sdp_utils_attribute_is_direction (spec_intersect a) with
      | none => exact ih
      | some j =>
        rw [h2] at h
        simp at h
    | some i =>
      rw [h1] at h
      cases h2 : sdp_utils_attribute_is_direction (spec_intersect a) with
      | none =>
        rw [h2] at h
        simp at h
      | some j =>
        rw [h2] at h
        simp only [Option.map_some', Option.some.injEq] at h
        exact h

/-- C22: for every media block, the direction that
`sdp_utils_media_config_get_direction` reads from the attribute list produced
by intersecting the attributes of the block is the reverse (sendonly and
recvonly exchanged, sendrecv and inactive fixed) of the direction it reads
from the block itself.  Examples: a block without direction attribute gives
SENDRECV on both sides; a block with the attributes SendOnly, recvonly gives
SENDONLY and its intersection RECVONLY. -/
theorem intersected_direction_is_reverse :
    (∀ media : GstSDPMedia,
      sdp_utils_media_config_get_direction (intersected_media media)
        = reverse_direction (sdp_utils_media_config_get_direction media)) ∧
    sdp_utils_media_config_get_direction
        ⟨"audio", "RTP/AVP", ["0"], [⟨"mid", some "a0"⟩, ⟨"setup", some "actpass"⟩]⟩
      = GstSDPDirection.SENDRECV ∧
    sdp_utils_media_config_get_direction (intersected_media
        ⟨"audio", "RTP/AVP", ["0"], [⟨"mid", some "a0"⟩, ⟨"setup", some "actpass"⟩]⟩)
      = GstSDPDirection.SENDRECV ∧
    sdp_utils_media_config_get_direction
        ⟨"audio", "RTP/AVP", ["0"], [⟨"SendOnly", some ""⟩, ⟨"recvonly", some ""⟩]⟩
      = GstSDPDirection.SENDONLY ∧
    sdp_utils_media_config_get_direction (intersected_media
        ⟨"audio", "RTP/AVP", ["0"], [⟨"SendOnly", some ""⟩, ⟨"recvonly", some ""⟩]⟩)
      = GstSDPDirection.RECVONLY := by
  refine ⟨?_, by decide, by decide, by decide, by decide⟩
  intro media
  unfold sdp_utils_media_config_get_direction intersected_media
  simp only [intersect_media_recorded]
  exact config_get_direction_loop_map GstSDPDirection.SENDRECV media.attributes

/-! ## The rtpmap lookup: payload-type token and table index -/

/-- What the explicit search guarantees: an encoding taken from an attribute
is the text after the first space of a value that begins with the format id. -/
theorem rtpmap_search_some (format : String) (attrs : List GstSDPAttribute) (r : String)
    (h : rtpmap_search format attrs = some r) :
    ∃ a ∈ attrs, ∃ v, a.value = some v ∧ rtpmap_matches format a ∧ r = after_first_space v := by
  induction attrs with
  | nil => simp [rtpmap_search] at h
  | cons a rest ih =>
    by_cases hm : rtpmap_matches format a
    · obtain ⟨-, v, hv, -, -⟩ := id hm
      rw [rtpmap_search_cons_match format a rest v hm hv] at h
      exact ⟨a, by simp, v, hv, hm, (Option.some.inj h).symm⟩
    · rw [rtpmap_search_cons_no_match format a rest hm] at h
      obtain ⟨b, hb, v, hv, hbm, hr⟩ := ih h
      exact ⟨b, by simp [hb], v, hv, hbm, hr⟩

/-- C24 at the failing input: asked for the format id "9", with the only
rtpmap attribute "96 VP8/90000", whose payload-type token is "96",
`sdp_utils_sdp_media_get_rtpmap` returns "VP8/90000", the encoding declared
for payload type 96, instead of the static entry of payload type 9: the
attribute is selected by `g_str_has_prefix (attr->value, format)`. -/
theorem rtpmap_prefix_returns_other_payload_type :
    leading_token "96 VP8/90000" = some "96" ∧
    sdp_utils_sdp_media_get_rtpmap
        ⟨"video", "RTP/AVP", ["9", "96"], [⟨"rtpmap", some "96 VP8/90000"⟩]⟩ "9"
      = Outcome.ok (some "VP8/90000") ∧
    sdp_utils_sdp_media_get_rtpmap ⟨"video", "RTP/AVP", ["9", "96"], []⟩ "9"
      = Outcome.ok (some "G722/8000/1") := by
  decide

/-- C25 at the failing input: the all-digit format id "2147483648" is
converted to the `int` -2147483648, which passes the test `pt > 34`, and the
table `rtpmaps` is read at that negative index. -/
theorem rtpmap_negative_table_index :
    "2147483648".data.all g_ascii_isdigit = true ∧
    atoi "2147483648" = -2147483648 ∧
    rtpmaps_read (atoi "2147483648") = Outcome.undefined ∧
    sdp_utils_sdp_media_get_rtpmap ⟨"audio", "RTP/AVP", ["2147483648"], []⟩ "2147483648"
      = Outcome.undefined := by
  decide

/-- Where the table read is in bounds: for an all-digit format id whose value
fits a 32-bit signed `int` (the empty format id reads as 0), the fallback
returns without reading outside the table. -/
theorem rtpmap_defined_of_value_in_int_range (media : GstSDPMedia) (format : String)
    (hd : ∀ c ∈ format.data, g_ascii_isdigit c = true)
    (hmax : decimalValue format.data < 2 ^ 31) :
    sdp_utils_sdp_media_get_rtpmap media format ≠ Outcome.undefined := by
  unfold sdp_utils_sdp_media_get_rtpmap
  cases hs : rtpmap_search format media.attributes with
  | some r =>
    intro h
    exact Outcome.noConfusion h
  | none =>
    have hall : format.data.all g_ascii_isdigit = true := by
      rw [List.all_eq_true]
      exact hd
    have hat : atoi format = (decimalValue format.data : Int) := by
      rw [atoi_of_digits format hd]
      exact wrap32_clamp64_small _ hmax
    simp only [hall, if_true, hat]
    by_cases h34 : (decimalValue format.data : Int) > 34
    · simp only [h34, if_true]
      intro h
      exact Outcome.noConfusion h
    · have h2 : (0 : Int) ≤ decimalValue format.data ∧ (decimalValue format.data : Int) < 35 := by
        omega
      simp only [h34, if_false, rtpmaps_read, h2, and_self, if_true]
      intro h
      exact Outcome.noConfusion h

/-! ## The hub: ghost pad of the audio sink -/

/-- The callback of a port for a source pad whose name starts with "hub" and
contains "audio" but not "video": the audio ghost pad is created with the
audio sink target, but only when the video sink target is set. -/
theorem endpoint_pad_added_audio (hub : KmsBaseHub) (pad : GstPad)
    (port_data : KmsBaseHubPortData) (hsrc : pad.direction = GstPadDirection.GST_PAD_SRC)
    (hhub : g_str_has_prefix (some pad.name) (some "hub") = true)
    (haudio : (g_strstr_len (some pad.name) "audio").isSome = true)
    (hvideo : (g_strstr_len (some pad.name) "video").isSome = false) :
    endpoint_pad_added hub pad port_data =
      if port_data.video_sink_target ≠ none then
        (kms_base_hub_create_and_link_ghost_pad hub pad
          (AUDIO_SINK_PAD_PREFIX ++ toString port_data.id) AUDIO_SINK_PAD_NAME
          port_data.audio_sink_target).2
      else hub := by
  unfold endpoint_pad_added
  simp [hsrc, hhub, haudio, hvideo]

/-- C26 at the failing input: the port 3 has its audio sink target set and its
video sink target not set, and adds the source pad "hub_audio_src"; the hub
gets no pad audio_sink_3, because the audio branch of `endpoint_pad_added`
tests `port_data->video_sink_target`.  With both targets set the pad
audio_sink_3 is created with the audio target and linked. -/
theorem endpoint_pad_added_audio_needs_video_target :
    g_str_has_prefix (some hub_audio_src_pad.name) (some "hub") = true ∧
    (g_strstr_len (some hub_audio_src_pad.name) "audio").isSome = true ∧
    (g_strstr_len (some hub_audio_src_pad.name) "video").isSome = false ∧
    audio_only_port.audio_sink_target ≠ none ∧
    endpoint_pad_added empty_hub hub_audio_src_pad audio_only_port = empty_hub ∧
    (endpoint_pad_added empty_hub hub_audio_src_pad audio_video_port).pads
      = [⟨"audio_sink_3", "audio_sink_%u", ⟨"sink_0", GstPadDirection.GST_PAD_SINK⟩, true,
          some hub_audio_src_pad⟩] := by
  decide

end SdpUtils
